import Mathlib

/-!
# Verification of the TaxasGE corpus generator (`scripts/corpus_generator.py`)

The repository file `scripts/corpus_generator.py` contains two spliced copies of
the corpus generator:

* an augmentation-capable generator (file lines 1-1085; its `_process_concepto`
  response chain appears at lines 567-588 with a displaced fragment of the
  documents/procedure branches stranded at lines 1085-1103), modelled below in
  namespace `V1`;
* a complete non-augmenting generator (file lines 1104-1905), modelled below in
  namespace `V2`.

Both are shallowly embedded: Python dicts/lists loaded from JSON become the
`JVal` inductive, Python strings become Lean `String`/`List Char`, and every
call to the `random` module is modelled by explicit draw streams
(`fs : Nat → ℚ` for `random.random()`, `is : Nat → Nat` for
`random.choice`/`random.randint`/`random.sample` index draws) threaded through
the computation with counters.  Operations that can raise in Python
(attribute access on non-dicts, indexing, choosing from an empty sequence)
return `Option`, `none` marking an uncaught exception.
-/

/-! ## Character-level model of Python string case operations

Python `str.lower` / `str.upper` / `str.isalpha` are Unicode-aware; the
generator only ever exercises them on ASCII letters plus the accented Latin
letters appearing in its own accent-substitution table (corpus_generator.py
lines 400-406).  `caseTable` pairs each such lowercase letter with its
uppercase form; the `py`-prefixed functions below are the model of the Python
string methods restricted to that alphabet. -/

def caseTable : List (Char × Char) :=
  [('a', 'A'), ('b', 'B'), ('c', 'C'), ('d', 'D'), ('e', 'E'), ('f', 'F'),
   ('g', 'G'), ('h', 'H'), ('i', 'I'), ('j', 'J'), ('k', 'K'), ('l', 'L'),
   ('m', 'M'), ('n', 'N'), ('o', 'O'), ('p', 'P'), ('q', 'Q'), ('r', 'R'),
   ('s', 'S'), ('t', 'T'), ('u', 'U'), ('v', 'V'), ('w', 'W'), ('x', 'X'),
   ('y', 'Y'), ('z', 'Z'),
   ('á', 'Á'), ('é', 'É'), ('í', 'Í'), ('ó', 'Ó'), ('ú', 'Ú'),
   ('à', 'À'), ('è', 'È'), ('ì', 'Ì'), ('ò', 'Ò'), ('ù', 'Ù'),
   ('â', 'Â'), ('ê', 'Ê'), ('î', 'Î'), ('ô', 'Ô'), ('û', 'Û'),
   ('ä', 'Ä'), ('ë', 'Ë'), ('ï', 'Ï'), ('ö', 'Ö'), ('ü', 'Ü'),
   ('ñ', 'Ñ'), ('ç', 'Ç')]

/-- Model of Python `c.isalpha()` on the generator's alphabet. -/
def pyIsAlpha (c : Char) : Bool :=
  caseTable.any (fun p => p.1 = c || p.2 = c)

/-- Model of Python `c.upper()` (single character). -/
def pyToUpper (c : Char) : Char :=
  match caseTable.find? (fun p => p.1 = c) with
  | some p => p.2
  | none => c

/-- Model of Python `c.lower()` (single character). -/
def pyToLower (c : Char) : Char :=
  match caseTable.find? (fun p => p.2 = c) with
  | some p => p.1
  | none => c

/-- `c` is an uppercase letter of the modelled alphabet. -/
def pyIsUpper (c : Char) : Bool :=
  caseTable.any (fun p => p.2 = c)

/-- Model of Python `s.lower()`. -/
def pyLower (s : String) : String := ⟨s.data.map pyToLower⟩

/-! ## Python string helpers -/

/-- Model of Python whitespace for `str.strip()` / `str.split()`. -/
def pyIsSpace (c : Char) : Bool := c = ' ' || c = '\t' || c = '\n' || c = '\r'

/-- Model of Python `s.strip()` on a character list. -/
def pyStripL (s : List Char) : List Char :=
  ((s.dropWhile pyIsSpace).reverse.dropWhile pyIsSpace).reverse

/-- Model of Python `s.strip()` on a `String`. -/
def pyStrip (s : String) : String := ⟨pyStripL s.data⟩

/-- Model of Python `s.split(sep)` for a one-character separator (`","`):
    `"".split(",") = [""]`, i.e. the split of the empty string is a singleton
    containing the empty string. -/
def pySplitChar (sep : Char) (s : List Char) : List (List Char) :=
  match s with
  | [] => [[]]
  | c :: rest =>
    let parts := pySplitChar sep rest
    if c = sep then [] :: parts
    else
      match parts with
      | [] => [[c]]
      | p :: ps => (c :: p) :: ps

/-- Model of Python `s.split(",")` returning `String`s. -/
def pySplitComma (s : String) : List String :=
  (pySplitChar ',' s.data).map (fun l => (⟨l⟩ : String))

/-- Model of Python no-argument `s.split()`: split on runs of whitespace,
    dropping empty fields. -/
def pySplitWs (s : List Char) : List (List Char) :=
  ((s.splitOnP pyIsSpace).map id).filter (fun l => l ≠ [])

/-- Model of Python `' '.join(words)`. -/
def pyJoinSpace (ws : List (List Char)) : List Char :=
  match ws with
  | [] => []
  | [w] => w
  | w :: rest => w ++ ' ' :: pyJoinSpace rest

/-- `kw` occurs as a contiguous run inside `s`. -/
def listHasRun (kw s : List Char) : Bool :=
  match s with
  | [] => kw.isEmpty
  | _ :: rest => kw.isPrefixOf s || listHasRun kw rest

/-- Model of Python substring containment `kw in s`. -/
def pyContains (s kw : String) : Bool := listHasRun kw.data s.data

/-- Model of Python `s.startswith(p)`. -/
def pyStartsWith (s p : List Char) : Bool := p.isPrefixOf s

/-- Model of Python `s.replace(old, new)` for single characters (used by the
    accent-substitution loop, where every key and value is one character, so
    the sequential `str.replace` calls act independently per character). -/
def pyReplaceChar (old new : Char) (s : List Char) : List Char :=
  s.map (fun c => if c = old then new else c)

/-- Model of `_capitalize_first_letter` (corpus_generator.py lines 457-461 and
    1403-1407): uppercase the first character unconditionally (Python
    `str.upper` leaves uncased characters unchanged). -/
def capitalizeFirstLetter (s : String) : String :=
  match s.data with
  | [] => s
  | c :: rest => ⟨pyToUpper c :: rest⟩

/-- Model of Python `template.format(key=value)`: textual substitution of the
    placeholder `"{key}"`. -/
def pyFormat (tpl : String) (key value : String) : String :=
  tpl.replace ("\x7b" ++ key ++ "\x7d") value

/-! ## Randomness primitives

`random.random()` draws are modelled by a stream `fs : Nat → ℚ` of values in
`[0,1)`; `random.choice` / `random.randint` / `random.sample` draws by a
stream `is : Nat → Nat`, reduced into range by `%` (the real PRNG guarantees
an in-range result; out-of-range inputs such as `choice` on an empty sequence
are the cases where Python raises, modelled by `none`). -/

/-- Model of `random.choice(xs)`: `none` iff `xs` is empty (Python raises
    `IndexError` there). -/
def pyChoice (xs : List α) (draw : Nat) : Option α :=
  xs.get? (draw % xs.length)

/-- Model of `random.randint(0, hi)` (inclusive bounds, as in Python). -/
def pyRandint (hi : Nat) (draw : Nat) : Nat := draw % (hi + 1)

/-- Guarded list update: model of Python `xs[i] = v` (raises when out of
    range). -/
def pySet (xs : List α) (i : Nat) (v : α) : Option (List α) :=
  if i < xs.length then some (xs.set i v) else none

/-- Guarded indexing: model of Python `xs[i]`. -/
def pyGet (xs : List α) (i : Nat) : Option α := xs.get? i

/-- Model of Python `xs.pop(i)` (the removal effect; raises out of range). -/
def pyPop (xs : List α) (i : Nat) : Option (List α) :=
  if i < xs.length then some (xs.eraseIdx i) else none

/-- Model of Python `xs.insert(i, v)` (never raises; clamps the index). -/
def pyInsertAt (xs : List α) (i : Nat) (v : α) : List α :=
  xs.take i ++ v :: xs.drop i

/-- Model of `random.sample(xs, k)`: `k` draws without replacement, each draw
    choosing a position among the remaining elements. -/
def pySample (xs : List α) (k : Nat) (is : Nat → Nat) (ii : Nat) : List α :=
  match k, xs with
  | 0, _ => []
  | _ + 1, [] => []
  | k + 1, x :: rest =>
    let idx := is ii % (x :: rest).length
    match (x :: rest).get? idx with
    | none => []
    | some chosen => chosen :: pySample ((x :: rest).eraseIdx idx) k is (ii + 1)

/-! ## Template registry (corpus_generator.py lines 25-292)

The string constants of the script, transcribed verbatim (apostrophes written
with the `\x27` escape). -/

def QUESTION_TEMPLATES : List (String × List String) :=
  [("es",
    ["¿Cuánto cuesta {concepto}?",
     "¿Cuál es el precio de {concepto}?",
     "¿Cuánto tengo que pagar por {concepto}?",
     "¿Cuál es la tasa de {concepto}?",
     "¿Qué documentos necesito para {concepto}?",
     "¿Qué documentos se requieren para {concepto}?",
     "¿Qué documentación debo presentar para {concepto}?",
     "¿Cuáles son los requisitos para {concepto}?",
     "¿Cuál es el procedimiento para {concepto}?",
     "¿Cómo puedo obtener {concepto}?",
     "¿Cuál es el proceso para {concepto}?",
     "¿Dónde puedo tramitar {concepto}?",
     "¿A qué ministerio pertenece {concepto}?",
     "¿Qué ministerio se encarga de {concepto}?",
     "¿Qué departamento gestiona {concepto}?",
     "Necesito información sobre {concepto}",
     "Háblame de {concepto}",
     "Explícame {concepto}",
     "¿Cuánto cuesta renovar {concepto}?",
     "¿Cuál es el costo de renovación de {concepto}?",
     "¿Cuál es la tasa de renovación para {concepto}?"]),
   ("fr",
    ["Combien coûte {concepto}?",
     "Quel est le prix de {concepto}?",
     "Combien dois-je payer pour {concepto}?",
     "Quel est le montant de la taxe pour {concepto}?",
     "Quels documents sont nécessaires pour {concepto}?",
     "Quels documents sont requis pour {concepto}?",
     "Quelle documentation dois-je présenter pour {concepto}?",
     "Quelles sont les conditions requises pour {concepto}?",
     "Quelle est la procédure pour {concepto}?",
     "Comment puis-je obtenir {concepto}?",
     "Quel est le processus pour {concepto}?",
     "Où puis-je faire la demande de {concepto}?",
     "À quel ministère appartient {concepto}?",
     "Quel ministère est en charge de {concepto}?",
     "Quel département gère {concepto}?",
     "J\x27ai besoin d\x27informations sur {concepto}",
     "Parlez-moi de {concepto}",
     "Expliquez-moi {concepto}",
     "Combien coûte le renouvellement de {concepto}?",
     "Quel est le coût de renouvellement de {concepto}?",
     "Quel est le montant pour renouveler {concepto}?"]),
   ("en",
    ["How much does {concepto} cost?",
     "What is the price of {concepto}?",
     "How much do I have to pay for {concepto}?",
     "What is the fee for {concepto}?",
     "What documents do I need for {concepto}?",
     "What documents are required for {concepto}?",
     "What documentation should I submit for {concepto}?",
     "What are the requirements for {concepto}?",
     "What is the procedure for {concepto}?",
     "How can I obtain {concepto}?",
     "What is the process for {concepto}?",
     "Where can I apply for {concepto}?",
     "Which ministry handles {concepto}?",
     "Which ministry is in charge of {concepto}?",
     "Which department manages {concepto}?",
     "I need information about {concepto}",
     "Tell me about {concepto}",
     "Explain {concepto} to me",
     "How much does it cost to renew {concepto}?",
     "What is the renewal cost for {concepto}?",
     "What is the renewal fee for {concepto}?"])]

def GENERAL_QUESTION_TEMPLATES : List (String × List String) :=
  [("es",
    ["¿Qué trámites puedo hacer en el Ministerio de {ministerio}?",
     "¿Qué servicios ofrece el Ministerio de {ministerio}?",
     "¿Cuáles son las tasas del Ministerio de {ministerio}?",
     "¿Qué documentos emite el Ministerio de {ministerio}?",
     "¿Cómo contactar al Ministerio de {ministerio}?",
     "¿Qué categorías de tasas existen en {ministerio}?"]),
   ("fr",
    ["Quelles démarches puis-je faire au Ministère de {ministerio}?",
     "Quels services propose le Ministère de {ministerio}?",
     "Quelles sont les taxes du Ministère de {ministerio}?",
     "Quels documents sont émis par le Ministère de {ministerio}?",
     "Comment contacter le Ministère de {ministerio}?",
     "Quelles catégories de taxes existent au {ministerio}?"]),
   ("en",
    ["What procedures can I do at the Ministry of {ministerio}?",
     "What services does the Ministry of {ministerio} offer?",
     "What are the fees at the Ministry of {ministerio}?",
     "What documents are issued by the Ministry of {ministerio}?",
     "How can I contact the Ministry of {ministerio}?",
     "What categories of fees exist in {ministerio}?"])]

def KEYWORD_QUESTION_TEMPLATES : List (String × List String) :=
  [("es",
    ["¿Dónde puedo obtener documentos relacionados con {palabra_clave}?",
     "¿Qué trámites existen para {palabra_clave}?",
     "Busco información sobre {palabra_clave}",
     "¿Qué tasas están relacionadas con {palabra_clave}?",
     "Necesito hacer un trámite de {palabra_clave}"]),
   ("fr",
    ["Où puis-je obtenir des documents liés à {palabra_clave}?",
     "Quelles procédures existent pour {palabra_clave}?",
     "Je cherche des informations sur {palabra_clave}",
     "Quelles taxes sont liées à {palabra_clave}?",
     "J\x27ai besoin de faire une démarche concernant {palabra_clave}"]),
   ("en",
    ["Where can I get documents related to {palabra_clave}?",
     "What procedures exist for {palabra_clave}?",
     "I\x27m looking for information about {palabra_clave}",
     "What fees are related to {palabra_clave}?",
     "I need to do a procedure related to {palabra_clave}"])]

/-- `RESPONSE_TEMPLATES[category][lang]`. -/
def RESPONSE_TEMPLATES (category lang : String) : String :=
  if category = "precio" then
    if lang = "es" then "El costo de {concepto} es {tasa_expedicion} para expedición y {tasa_renovacion} para renovación."
    else if lang = "fr" then "Le coût de {concepto} est de {tasa_expedicion} pour l\x27émission et {tasa_renovacion} pour le renouvellement."
    else "The cost of {concepto} is {tasa_expedicion} for issuance and {tasa_renovacion} for renewal."
  else if category = "documentos" then
    if lang = "es" then "Los documentos requeridos para {concepto} son: {documentos_requeridos}"
    else if lang = "fr" then "Les documents requis pour {concepto} sont: {documentos_requeridos}"
    else "The required documents for {concepto} are: {documentos_requeridos}"
  else if category = "procedimiento" then
    if lang = "es" then "El procedimiento para {concepto} es: {procedimiento}"
    else if lang = "fr" then "La procédure pour {concepto} est: {procedimiento}"
    else "The procedure for {concepto} is: {procedimiento}"
  else if category = "ministerio" then
    if lang = "es" then "{concepto} es gestionado por el Ministerio de {ministerio}."
    else if lang = "fr" then "{concepto} est géré par le Ministère de {ministerio}."
    else "{concepto} is managed by the Ministry of {ministerio}."
  else if category = "informacion_general" then
    if lang = "es" then "{concepto} es un trámite del Ministerio de {ministerio}. El costo es {tasa_expedicion} para expedición y {tasa_renovacion} para renovación."
    else if lang = "fr" then "{concepto} est une démarche du Ministère de {ministerio}. Le coût est de {tasa_expedicion} pour l\x27émission et {tasa_renovacion} pour le renouvellement."
    else "{concepto} is a procedure of the Ministry of {ministerio}. The cost is {tasa_expedicion} for issuance and {tasa_renovacion} for renewal."
  else if category = "ministerio_general" then
    if lang = "es" then "El Ministerio de {ministerio} gestiona varios trámites, entre ellos: {conceptos}."
    else if lang = "fr" then "Le Ministère de {ministerio} gère plusieurs démarches, notamment: {conceptos}."
    else "The Ministry of {ministerio} manages several procedures, including: {conceptos}."
  else
    if lang = "es" then "Para trámites relacionados con {palabra_clave}, puede consultar: {conceptos}."
    else if lang = "fr" then "Pour les démarches liées à {palabra_clave}, vous pouvez consulter: {conceptos}."
    else "For procedures related to {palabra_clave}, you can check: {conceptos}."

def FALLBACK_RESPONSES : List (String × List String) :=
  [("es",
    ["No tengo información específica sobre {concepto}. Por favor, consulte directamente con el ministerio correspondiente.",
     "Lo siento, no puedo proporcionar información detallada sobre {concepto}.",
     "No dispongo de datos sobre {concepto}. Recomiendo consultar en la página web oficial del gobierno."]),
   ("fr",
    ["Je n\x27ai pas d\x27informations spécifiques sur {concepto}. Veuillez consulter directement le ministère concerné.",
     "Désolé, je ne peux pas fournir d\x27informations détaillées sur {concepto}.",
     "Je ne dispose pas de données sur {concepto}. Je recommande de consulter le site web officiel du gouvernement."]),
   ("en",
    ["I don\x27t have specific information about {concepto}. Please consult directly with the corresponding ministry.",
     "Sorry, I cannot provide detailed information about {concepto}.",
     "I don\x27t have data about {concepto}. I recommend checking the official government website."])]

def GREETING_TEMPLATES : List (String × List String) :=
  [("es", ["Hola", "Buenos días", "Buenas tardes", "Buenas noches", "Saludos"]),
   ("fr", ["Bonjour", "Salut", "Bonsoir", "Coucou", "Salutations"]),
   ("en", ["Hello", "Hi", "Good morning", "Good afternoon", "Good evening", "Greetings"])]

def THANKS_TEMPLATES : List (String × List String) :=
  [("es", ["Gracias", "Muchas gracias", "Te agradezco", "Gracias por la información", "Excelente, gracias"]),
   ("fr", ["Merci", "Merci beaucoup", "Je vous remercie", "Merci pour l\x27information", "Excellent, merci"]),
   ("en", ["Thanks", "Thank you", "Thank you very much", "Thanks for the information", "Great, thanks"])]

def GREETING_RESPONSES : List (String × List String) :=
  [("es",
    ["Hola, ¿en qué puedo ayudarte?",
     "Buenos días, ¿qué información sobre tasas fiscales necesitas?",
     "Hola, soy el asistente virtual de TaxasGE. ¿Cómo puedo ayudarte?",
     "Saludos, estoy aquí para responder tus preguntas sobre tasas fiscales en Guinea Ecuatorial."]),
   ("fr",
    ["Bonjour, comment puis-je vous aider?",
     "Bonjour, quelle information sur les taxes fiscales vous faut-il?",
     "Bonjour, je suis l\x27assistant virtuel de TaxasGE. Comment puis-je vous aider?",
     "Salutations, je suis là pour répondre à vos questions sur les taxes fiscales en Guinée Équatoriale."]),
   ("en",
    ["Hello, how can I help you?",
     "Good day, what information about fiscal taxes do you need?",
     "Hi, I\x27m the TaxasGE virtual assistant. How can I help you?",
     "Greetings, I\x27m here to answer your questions about fiscal taxes in Equatorial Guinea."])]

def THANKS_RESPONSES : List (String × List String) :=
  [("es",
    ["De nada, estoy aquí para ayudar.",
     "Un placer. ¿Necesitas algo más?",
     "No hay problema. ¿Puedo ayudarte con algo más?",
     "A tu servicio. ¿Hay algo más en lo que pueda asistirte?"]),
   ("fr",
    ["De rien, je suis là pour aider.",
     "Avec plaisir. Avez-vous besoin d\x27autre chose?",
     "Pas de problème. Puis-je vous aider avec autre chose?",
     "À votre service. Y a-t-il autre chose dont vous avez besoin?"]),
   ("en",
    ["You\x27re welcome, I\x27m here to help.",
     "My pleasure. Do you need anything else?",
     "No problem. Can I help you with something else?",
     "At your service. Is there anything else I can assist you with?"])]

def GE_LOCALISMS : List (String × List String) :=
  [("es",
    ["documento", "papel", "carnet", "cédula", "recibo", "comprobante",
     "pagar", "abonar", "cotizar", "plata", "efectivo",
     "ayuda", "dato", "info", "consulta"]),
   ("fr",
    ["papier", "carte", "facture", "reçu",
     "payer", "régler", "cotiser", "fric", "argent", "cash",
     "aide", "renseignement", "info"]),
   ("en",
    ["paper", "card", "bill", "receipt",
     "pay", "settle", "fee", "money", "cash",
     "help", "info"])]

/-- The supported language codes, `list(QUESTION_TEMPLATES.keys())` — the
    default value of every `languages=None` parameter. -/
def supportedLangs : List String := QUESTION_TEMPLATES.map Prod.fst

/-- Dictionary lookup with default, for the template registries. -/
def tplOf (reg : List (String × List String)) (lang : String) : List String :=
  (reg.lookup lang).getD []

/-! ## JSON values

Values loaded by `json.load`: strings, numbers, objects (insertion-ordered
key/value lists with unique keys), arrays. -/

inductive JVal where
  | str (s : String)
  | num (n : Int)
  | obj (fields : List (String × JVal))
  | arr (elems : List JVal)

/-- Python truthiness test (`if not x`) for loaded JSON values. -/
def jFalsy : JVal → Bool
  | .str s => s = ""
  | .num n => n = 0
  | .obj fields => fields.isEmpty
  | .arr elems => elems.isEmpty

/-- Model of Python `str(x)` for values interpolated into f-strings and
    `format` calls.  The generated data only ever interpolates strings and
    numbers; container values are not exercised by any modelled path and map
    to `""`. -/
def pyStrOf : JVal → String
  | .str s => s
  | .num n => toString n
  | .obj _ => ""
  | .arr _ => ""

/-- Model of Python iteration `for x in v`: arrays yield their elements,
    dicts their keys, strings their characters; numbers are not iterable
    (`TypeError`). -/
def pyIter : JVal → Option (List JVal)
  | .arr elems => some elems
  | .obj fields => some (fields.map (fun p => JVal.str p.1))
  | .str s => some (s.data.map (fun c => JVal.str ⟨[c]⟩))
  | .num _ => none

/-- Insertion-order-preserving dict update (`d[k] = v`). -/
def assocSet (fields : List (String × JVal)) (k : String) (v : JVal) :
    List (String × JVal) :=
  if fields.any (fun p => p.1 = k) then
    fields.map (fun p => if p.1 = k then (k, v) else p)
  else fields ++ [(k, v)]

/-! ## Training examples and statistics -/

/-- One generated training example (flattening the `metadata` sub-dict into
    optional fields; a `none` field models an absent key). -/
structure Example where
  id : String
  language : String
  concept_id : String
  question : String
  answer : String
  ministry : Option String
  query_type : String
  keyword : Option String
  augmented : Option Bool
deriving Repr, DecidableEq

/-- The generator's `self.stats` dict.  The `languages` sub-dict is
    initialized with exactly the keys of `QUESTION_TEMPLATES` (es, fr, en),
    modelled by three counters.  `augmented_examples` exists only in the
    augmenting generator (`V1`); it stays 0 in `V2`. -/
structure Stats where
  total_examples : Nat
  concepts : Nat
  lang_es : Nat
  lang_fr : Nat
  lang_en : Nat
  augmented_examples : Nat
deriving Repr, DecidableEq

def initStats : Stats :=
  { total_examples := 0, concepts := 0, lang_es := 0, lang_fr := 0,
    lang_en := 0, augmented_examples := 0 }

/-- `self.stats["languages"][lang] += 1`.  Every call site reaches this with
    `lang` drawn from `supportedLangs` (the dict is initialized with exactly
    those keys), so the fall-through branch is unreachable. -/
def bumpLang (lang : String) (s : Stats) : Stats :=
  if lang = "es" then { s with lang_es := s.lang_es + 1 }
  else if lang = "fr" then { s with lang_fr := s.lang_fr + 1 }
  else if lang = "en" then { s with lang_en := s.lang_en + 1 }
  else s

/-- The paired updates `languages[lang] += 1; total_examples += 1` executed
    after appending an original example. -/
def addOriginal (lang : String) (s : Stats) : Stats :=
  let s := bumpLang lang s
  { s with total_examples := s.total_examples + 1 }

/-- The triple update `augmented_examples += 1; languages[lang] += 1;
    total_examples += 1` executed after appending an augmented example. -/
def addAugmented (lang : String) (s : Stats) : Stats :=
  let s := bumpLang lang { s with augmented_examples := s.augmented_examples + 1 }
  { s with total_examples := s.total_examples + 1 }

/-! ## Shared record-normalization helpers

`_process_concepto` and `_process_ministerio` repeat one pattern per
localized field: if the raw value is a dict, use it as the per-language view;
otherwise store it under `"es"` and probe the record for `<field>_<lang>`
keys for every requested language (the language list is always the default
`supportedLangs` in every reachable call). -/

def localizedDict (fields : List (String × JVal)) (field : String)
    (dflt : JVal) : List (String × JVal) :=
  match (fields.lookup field).getD dflt with
  | .obj fs => fs
  | v =>
    supportedLangs.foldl
      (fun acc lang =>
        match fields.lookup (field ++ "_" ++ lang) with
        | some w => assocSet acc lang w
        | none => acc)
      [("es", v)]

/-- The localized-field resolution applied at the point of use:
    `d.get(lang, d.get("es", fallback))`. -/
def resolveLocalized (d : List (String × JVal)) (lang : String)
    (fallback : JVal) : JVal :=
  (d.lookup lang).getD ((d.lookup "es").getD fallback)

/-! ## Trigger keyword sets of the response-classification chain -/

def precioTriggers : List String :=
  ["cuesta", "precio", "pagar", "tasa", "coût", "cost", "pay", "fee"]

def documentosTriggers : List String :=
  ["documento", "requisito", "document", "requirement"]

def procedimientoTriggers : List String :=
  ["procedimiento", "obtener", "proceso", "procédure", "obtenir", "procedure", "process"]

def ministerioTriggers : List String :=
  ["ministerio", "departamento", "ministère", "ministry", "department"]

/-- `any(keyword in question_template.lower() for keyword in kws)`. -/
def hasTrigger (tpl : String) (kws : List String) : Bool :=
  kws.any (fun k => pyContains (pyLower tpl) k)

/-! ## V2: the complete non-augmenting generator (file lines 1104-1905) -/

namespace V2

/-- The response-classification chain of `_process_concepto`
    (corpus_generator.py lines 1513-1552), as the category it selects:
    checked in order precio → documentos → procedimiento → ministerio, with
    `informacion_general` as the fall-through. -/
def classifyQuestionTemplate (tpl : String) : String :=
  if hasTrigger tpl precioTriggers then "precio"
  else if hasTrigger tpl documentosTriggers then "documentos"
  else if hasTrigger tpl procedimientoTriggers then "procedimiento"
  else if hasTrigger tpl ministerioTriggers then "ministerio"
  else "informacion_general"

/-- The response text built in the branch selected by
    `classifyQuestionTemplate` (lines 1513-1552).  The documentos and
    procedimiento branches draw a random fallback sentence when the resolved
    field is falsy. -/
def buildConceptResponse (category lang nombreS ministerioS tasaExpS tasaRenS :
    String) (docs proc : JVal) (is : Nat → Nat) (ii : Nat) :
    Option (String × Nat) :=
  if category = "precio" then
    some (pyFormat (pyFormat (pyFormat (RESPONSE_TEMPLATES "precio" lang)
      "concepto" nombreS) "tasa_expedicion" tasaExpS) "tasa_renovacion" tasaRenS, ii)
  else if category = "documentos" then
    if jFalsy docs then
      match pyChoice (tplOf FALLBACK_RESPONSES lang) (is ii) with
      | none => none
      | some fb => some (pyFormat fb "concepto" nombreS, ii + 1)
    else
      some (pyFormat (pyFormat (RESPONSE_TEMPLATES "documentos" lang)
        "concepto" nombreS) "documentos_requeridos" (pyStrOf docs), ii)
  else if category = "procedimiento" then
    if jFalsy proc then
      match pyChoice (tplOf FALLBACK_RESPONSES lang) (is ii) with
      | none => none
      | some fb => some (pyFormat fb "concepto" nombreS, ii + 1)
    else
      some (pyFormat (pyFormat (RESPONSE_TEMPLATES "procedimiento" lang)
        "concepto" nombreS) "procedimiento" (pyStrOf proc), ii)
  else if category = "ministerio" then
    some (pyFormat (pyFormat (RESPONSE_TEMPLATES "ministerio" lang)
      "concepto" nombreS) "ministerio" ministerioS, ii)
  else
    some (pyFormat (pyFormat (pyFormat (pyFormat
      (RESPONSE_TEMPLATES "informacion_general" lang)
      "concepto" nombreS) "ministerio" ministerioS)
      "tasa_expedicion" tasaExpS) "tasa_renovacion" tasaRenS, ii)

/-- The `for i in range(self.num_examples_per_concept)` loop of
    `_process_concepto` (lines 1507-1573), recursing on the remaining
    iteration count `n` with current index `i`. -/
def conceptExamplesLoop (lang conceptoIdS nombreS ministerioS tasaExpS tasaRenS :
    String) (docs proc : JVal) (i n : Nat) (is : Nat → Nat) (ii : Nat)
    (stats : Stats) : Option (List Example × Stats × Nat) :=
  match n with
  | 0 => some ([], stats, ii)
  | n + 1 =>
    match pyChoice (tplOf QUESTION_TEMPLATES lang) (is ii) with
    | none => none
    | some question_template =>
      let question := pyFormat question_template "concepto" nombreS
      let category := classifyQuestionTemplate question_template
      match buildConceptResponse category lang nombreS ministerioS tasaExpS
          tasaRenS docs proc is (ii + 1) with
      | none => none
      | some (response, ii2) =>
        let ex : Example :=
          { id := conceptoIdS ++ "_" ++ lang ++ "_" ++ toString i,
            language := lang,
            concept_id := conceptoIdS,
            question := capitalizeFirstLetter question,
            answer := capitalizeFirstLetter response,
            ministry := some ministerioS,
            query_type := "concepto",
            keyword := none,
            augmented := none }
        let stats := addOriginal lang stats
        match conceptExamplesLoop lang conceptoIdS nombreS ministerioS tasaExpS
            tasaRenS docs proc (i + 1) n is ii2 stats with
        | none => none
        | some (rest, stats', ii') => some (ex :: rest, stats', ii')

/-- The `for _ in range(min(2, len(keywords)))` loop of `_process_concepto`
    (lines 1581-1614). -/
def keywordExamplesLoop (lang conceptoIdS nombreS ministerioS : String)
    (keywords : List String) (n : Nat) (is : Nat → Nat) (ii : Nat)
    (stats : Stats) : Option (List Example × Stats × Nat) :=
  match n with
  | 0 => some ([], stats, ii)
  | n + 1 =>
    match pyChoice keywords (is ii) with
    | none => none
    | some keyword =>
      if pyStrip keyword = "" then
        keywordExamplesLoop lang conceptoIdS nombreS ministerioS keywords n is
          (ii + 1) stats
      else
        match pyChoice (tplOf KEYWORD_QUESTION_TEMPLATES lang) (is (ii + 1)) with
        | none => none
        | some template =>
          let question := pyFormat template "palabra_clave" (pyStrip keyword)
          let response := pyFormat (pyFormat (RESPONSE_TEMPLATES "keyword" lang)
            "palabra_clave" (pyStrip keyword)) "conceptos" nombreS
          let idx := if keywords.contains keyword then keywords.indexOf keyword else 0
          let ex : Example :=
            { id := conceptoIdS ++ "_" ++ lang ++ "_kw_" ++ toString idx,
              language := lang,
              concept_id := conceptoIdS,
              question := capitalizeFirstLetter question,
              answer := capitalizeFirstLetter response,
              ministry := some ministerioS,
              query_type := "keyword",
              keyword := some keyword,
              augmented := none }
          let stats := addOriginal lang stats
          match keywordExamplesLoop lang conceptoIdS nombreS ministerioS
              keywords n is (ii + 2) stats with
          | none => none
          | some (rest, stats', ii') => some (ex :: rest, stats', ii')

/-- The keyword list used for language `lang`, after the
    `isinstance(keywords, str)` re-split (lines 1576-1578); `none` when the
    value is a truthy non-sequence (Python raises at `random.choice`), and
    the `if keywords:` falsiness test result. -/
def keywordsFor (pkDict : List (String × JVal)) (lang : String) :
    Option (List String) :=
  match resolveLocalized pkDict lang (JVal.arr []) with
  | .str s => some ((pySplitComma s).map pyStrip)
  | .arr l => some (l.map pyStrOf)
  | v => if jFalsy v then some [] else none

/-- The per-language body of `_process_concepto` (lines 1494-1614). -/
def processConceptoLang (cfields : List (String × JVal))
    (nombres docsDict procDict pkDict : List (String × JVal))
    (conceptoIdV : JVal)
    (ministerioNombre : String) (numExamples : Nat) (lang : String)
    (is : Nat → Nat) (ii : Nat) (stats : Stats) :
    Option (List Example × Stats × Nat) :=
  let nombre := resolveLocalized nombres lang conceptoIdV
  if jFalsy nombre then some ([], stats, ii)
  else
    let docs := resolveLocalized docsDict lang (JVal.str "")
    let proc := resolveLocalized procDict lang (JVal.str "")
    let conceptoIdS := pyStrOf conceptoIdV
    let tasaExpS := pyStrOf ((cfields.lookup "tasa_expedicion").getD (JVal.str "N/A"))
    let tasaRenS := pyStrOf ((cfields.lookup "tasa_renovacion").getD (JVal.str "N/A"))
    match conceptExamplesLoop lang conceptoIdS (pyStrOf nombre) ministerioNombre
        tasaExpS tasaRenS docs proc 0 numExamples is ii stats with
    | none => none
    | some (examples, stats1, ii1) =>
      match keywordsFor pkDict lang with
      | none => none
      | some keywords =>
        if keywords.isEmpty then some (examples, stats1, ii1)
        else
          match keywordExamplesLoop lang conceptoIdS (pyStrOf nombre)
              ministerioNombre keywords (min 2 keywords.length) is ii1 stats1 with
          | none => none
          | some (kwExamples, stats2, ii2) =>
            some (examples ++ kwExamples, stats2, ii2)

/-- The `for lang in languages` loop of `_process_concepto`
    (lines 1494-1614). -/
def processConceptoLangs (cfields nombres docsDict procDict pkDict :
    List (String × JVal)) (conceptoIdV : JVal) (ministerioNombre : String)
    (numExamples : Nat) (langs : List String) (is : Nat → Nat) (ii : Nat)
    (stats : Stats) : Option (List Example × Stats × Nat) :=
  match langs with
  | [] => some ([], stats, ii)
  | lang :: rest =>
    match processConceptoLang cfields nombres docsDict procDict pkDict
        conceptoIdV ministerioNombre numExamples lang is ii stats with
    | none => none
    | some (examples, stats1, ii1) =>
      match processConceptoLangs cfields nombres docsDict procDict pkDict
          conceptoIdV ministerioNombre numExamples rest is ii1 stats1 with
      | none => none
      | some (more, stats2, ii2) => some (examples ++ more, stats2, ii2)

/-- `_process_concepto` (lines 1421-1616), at the default
    `languages=None` (the only call shape in `generate_corpus`). -/
def processConcepto (concepto : JVal) (ministerioNombre : String)
    (numExamples : Nat) (is : Nat → Nat) (ii : Nat) (stats : Stats) :
    Option (List Example × Stats × Nat) :=
  match concepto with
  | .obj cfields =>
    let conceptoIdV := (cfields.lookup "id").getD (JVal.str "")
    let palabras_clave :=
      match (cfields.lookup "palabras_clave").getD (JVal.str "") with
      | .str s => pySplitComma s
      | _ => []
    let nombres := localizedDict cfields "nombre" (JVal.str "")
    let docsDict := localizedDict cfields "documentos_requeridos" (JVal.str "")
    let procDict := localizedDict cfields "procedimiento" (JVal.str "")
    let pkDict :=
      match (cfields.lookup "palabras_clave").getD (JVal.str "") with
      | .obj fs => fs
      | _ =>
        if palabras_clave.isEmpty then []
        else supportedLangs.map (fun lang => (lang, JVal.arr (palabras_clave.map JVal.str)))
    processConceptoLangs cfields nombres docsDict procDict pkDict conceptoIdV
      ministerioNombre numExamples supportedLangs is ii stats
  | _ => none

end V2

/-- `", ".join(items)`. -/
def joinCommaSpace (items : List String) : String :=
  match items with
  | [] => ""
  | [w] => w
  | w :: rest => w ++ ", " ++ joinCommaSpace rest

/-- `_format_list` (corpus_generator.py lines 1409-1419):
    `", ".join(items[:-1]) + (conj + items[-1] if len(items) > 1 else items[0])`
    with the conjunction chosen by language. -/
def formatListWith (items : List String) (conj : String) : String :=
  joinCommaSpace items.dropLast ++
    (if items.length > 1 then conj ++ (items.getLastD "") else items.headD "")

def formatList (items : List String) (lang : String) : String :=
  if items.isEmpty then ""
  else if lang = "es" then formatListWith items " y "
  else if lang = "fr" then formatListWith items " et "
  else formatListWith items " and "

namespace V2

/-- The `all_concepts` collection walk of `_process_ministerio`
    (lines 1654-1676): every descendant concept's per-language name dict,
    written as one recursion per nesting level. -/
def collectConceptosNames (conceptos : List JVal)
    (acc : List (List (String × JVal))) :
    Option (List (List (String × JVal))) :=
  match conceptos with
  | [] => some acc
  | concepto :: rest =>
    match concepto with
    | .obj cfields =>
      collectConceptosNames rest
        (acc ++ [localizedDict cfields "nombre" (JVal.str "")])
    | _ => none

def collectSubsNames (subs : List JVal) (acc : List (List (String × JVal))) :
    Option (List (List (String × JVal))) :=
  match subs with
  | [] => some acc
  | sub :: rest =>
    match sub with
    | .obj subfields =>
      match pyIter ((subfields.lookup "conceptos").getD (JVal.arr [])) with
      | none => none
      | some conceptos =>
        match collectConceptosNames conceptos acc with
        | none => none
        | some acc1 => collectSubsNames rest acc1
    | _ => none

def collectCategoriasNames (categorias : List JVal)
    (acc : List (List (String × JVal))) :
    Option (List (List (String × JVal))) :=
  match categorias with
  | [] => some acc
  | categoria :: rest =>
    match categoria with
    | .obj catfields =>
      match pyIter ((catfields.lookup "sub_categorias").getD (JVal.arr [])) with
      | none => none
      | some subs =>
        match collectSubsNames subs acc with
        | none => none
        | some acc1 => collectCategoriasNames rest acc1
    | _ => none

def collectSectoresNames (sectores : List JVal)
    (acc : List (List (String × JVal))) :
    Option (List (List (String × JVal))) :=
  match sectores with
  | [] => some acc
  | sector :: rest =>
    match sector with
    | .obj sfields =>
      match pyIter ((sfields.lookup "categorias").getD (JVal.arr [])) with
      | none => none
      | some categorias =>
        match collectCategoriasNames categorias acc with
        | none => none
        | some acc1 => collectSectoresNames rest acc1
    | _ => none

def collectConceptNameDicts (mfields : List (String × JVal)) :
    Option (List (List (String × JVal))) :=
  match pyIter ((mfields.lookup "sectores").getD (JVal.arr [])) with
  | none => none
  | some sectores => collectSectoresNames sectores []

/-- The per-language concept-name list of `_process_ministerio`
    (lines 1684-1688): resolved names, skipping falsy ones, deduplicated in
    first-appearance order.  (The loaded names are strings; values are read
    through `str`.) -/
def conceptNamesAux (dicts : List (List (String × JVal))) (lang : String)
    (acc : List String) : List String :=
  match dicts with
  | [] => acc
  | d :: rest =>
    let name := resolveLocalized d lang (JVal.str "")
    if ¬jFalsy name && ¬acc.contains (pyStrOf name) then
      conceptNamesAux rest lang (acc ++ [pyStrOf name])
    else conceptNamesAux rest lang acc

def conceptNamesFor (dicts : List (List (String × JVal))) (lang : String) :
    List String :=
  conceptNamesAux dicts lang []

/-- The `for i, template in enumerate(templates[:2])` loop of
    `_process_ministerio` (lines 1700-1727). -/
def ministerioExamplesLoop (lang ministerioIdS nombreLangS conceptsFormatted :
    String) (templates : List String) (i : Nat) (stats : Stats) :
    List Example × Stats :=
  match templates with
  | [] => ([], stats)
  | template :: rest =>
    let question := pyFormat template "ministerio" nombreLangS
    let response := pyFormat (pyFormat (RESPONSE_TEMPLATES "ministerio_general" lang)
      "ministerio" nombreLangS) "conceptos" conceptsFormatted
    let ex : Example :=
      { id := ministerioIdS ++ "_" ++ lang ++ "_general_" ++ toString i,
        language := lang,
        concept_id := ministerioIdS,
        question := capitalizeFirstLetter question,
        answer := capitalizeFirstLetter response,
        ministry := some nombreLangS,
        query_type := "ministerio_general",
        keyword := none,
        augmented := none }
    let stats := addOriginal lang stats
    let (rest', stats') := ministerioExamplesLoop lang ministerioIdS nombreLangS
      conceptsFormatted rest (i + 1) stats
    (ex :: rest', stats')

/-- The per-language body of `_process_ministerio` (lines 1679-1727). -/
def processMinisterioLang (mnombres : List (String × JVal))
    (ministerioIdV : JVal) (dicts : List (List (String × JVal)))
    (lang : String) (is : Nat → Nat) (ii : Nat) (stats : Stats) :
    List Example × Stats × Nat :=
  let nombreLangS := pyStrOf (resolveLocalized mnombres lang ministerioIdV)
  let concept_names := conceptNamesFor dicts lang
  if concept_names.isEmpty then ([], stats, ii)
  else
    let k := min 5 concept_names.length
    let sample_concepts := pySample concept_names k is ii
    let conceptsFormatted := formatList sample_concepts lang
    let templates := (tplOf GENERAL_QUESTION_TEMPLATES lang).take 2
    let (examples, stats') := ministerioExamplesLoop lang (pyStrOf ministerioIdV)
      nombreLangS conceptsFormatted templates 0 stats
    (examples, stats', ii + k)

/-- The `for lang in languages` loop of `_process_ministerio`
    (lines 1679-1727). -/
def processMinisterioLangs (mnombres : List (String × JVal))
    (ministerioIdV : JVal) (dicts : List (List (String × JVal)))
    (langs : List String) (is : Nat → Nat) (ii : Nat) (stats : Stats) :
    List Example × Stats × Nat :=
  match langs with
  | [] => ([], stats, ii)
  | lang :: rest =>
    let (examples, stats1, ii1) :=
      processMinisterioLang mnombres ministerioIdV dicts lang is ii stats
    let (more, stats2, ii2) :=
      processMinisterioLangs mnombres ministerioIdV dicts rest is ii1 stats1
    (examples ++ more, stats2, ii2)

/-- `_process_ministerio` (lines 1618-1729), at the default
    `languages=None`. -/
def processMinisterio (ministerio : JVal) (is : Nat → Nat) (ii : Nat)
    (stats : Stats) : Option (List Example × Stats × Nat) :=
  match ministerio with
  | .obj mfields =>
    let ministerioIdV := (mfields.lookup "id").getD (JVal.str "")
    let mnombres := localizedDict mfields "nombre" (JVal.str "")
    match collectConceptNameDicts mfields with
    | none => none
    | some dicts =>
      some (processMinisterioLangs mnombres ministerioIdV dicts supportedLangs
        is ii stats)
  | _ => none

/-- The greeting half of `_generate_greeting_examples` (lines 1748-1766). -/
def greetingLoop (lang : String) (greetings : List String) (i : Nat)
    (is : Nat → Nat) (ii : Nat) (stats : Stats) :
    Option (List Example × Stats × Nat) :=
  match greetings with
  | [] => some ([], stats, ii)
  | greeting :: rest =>
    match pyChoice (tplOf GREETING_RESPONSES lang) (is ii) with
    | none => none
    | some response =>
      let ex : Example :=
        { id := "greeting_" ++ lang ++ "_" ++ toString i,
          language := lang,
          concept_id := "greeting",
          question := greeting,
          answer := response,
          ministry := none,
          query_type := "greeting",
          keyword := none,
          augmented := none }
      let stats := addOriginal lang stats
      match greetingLoop lang rest (i + 1) is (ii + 1) stats with
      | none => none
      | some (rest', stats', ii') => some (ex :: rest', stats', ii')

/-- The thanks half of `_generate_greeting_examples` (lines 1768-1785). -/
def thanksLoop (lang : String) (thanks : List String) (i : Nat)
    (is : Nat → Nat) (ii : Nat) (stats : Stats) :
    Option (List Example × Stats × Nat) :=
  match thanks with
  | [] => some ([], stats, ii)
  | t :: rest =>
    match pyChoice (tplOf THANKS_RESPONSES lang) (is ii) with
    | none => none
    | some response =>
      let ex : Example :=
        { id := "thanks_" ++ lang ++ "_" ++ toString i,
          language := lang,
          concept_id := "thanks",
          question := t,
          answer := response,
          ministry := none,
          query_type := "thanks",
          keyword := none,
          augmented := none }
      let stats := addOriginal lang stats
      match thanksLoop lang rest (i + 1) is (ii + 1) stats with
      | none => none
      | some (rest', stats', ii') => some (ex :: rest', stats', ii')

/-- `_generate_greeting_examples` (lines 1731-1787), at the default
    `languages=None`. -/
def generateGreetingLangs (langs : List String) (is : Nat → Nat) (ii : Nat)
    (stats : Stats) : Option (List Example × Stats × Nat) :=
  match langs with
  | [] => some ([], stats, ii)
  | lang :: rest =>
    match greetingLoop lang (tplOf GREETING_TEMPLATES lang) 0 is ii stats with
    | none => none
    | some (gs, stats1, ii1) =>
      match thanksLoop lang (tplOf THANKS_TEMPLATES lang) 0 is ii1 stats1 with
      | none => none
      | some (ts, stats2, ii2) =>
        match generateGreetingLangs rest is ii2 stats2 with
        | none => none
        | some (more, stats3, ii3) => some (gs ++ ts ++ more, stats3, ii3)

/-- `_generate_greeting_examples` (lines 1731-1787), at the default
    `languages=None`. -/
def generateGreetingExamples (is : Nat → Nat) (ii : Nat) (stats : Stats) :
    Option (List Example × Stats × Nat) :=
  generateGreetingLangs supportedLangs is ii stats

/-- `load_data` (lines 1391-1401): the parsed JSON document, or `[]` when the
    file is missing or unparsable (`none` input). -/
def loadData (loaded : Option JVal) : JVal := loaded.getD (JVal.arr [])

/-- The walk over sectors/categories/sub-categories/concepts inside
    `generate_corpus` (lines 1815-1830), calling `_process_concepto` per
    concept and incrementing the concept counter; one recursion per nesting
    level. -/
def walkConceptos (conceptos : List JVal) (ministerioNombreStr : String)
    (numExamples : Nat) (is : Nat → Nat) (acc : List Example × Stats × Nat) :
    Option (List Example × Stats × Nat) :=
  match conceptos with
  | [] => some acc
  | concepto :: rest =>
    match processConcepto concepto ministerioNombreStr numExamples is
        acc.2.2 acc.2.1 with
    | none => none
    | some (examples, stats1, ii1) =>
      walkConceptos rest ministerioNombreStr numExamples is
        (acc.1 ++ examples, { stats1 with concepts := stats1.concepts + 1 }, ii1)

def walkSubCategorias (subs : List JVal) (ministerioNombreStr : String)
    (numExamples : Nat) (is : Nat → Nat) (acc : List Example × Stats × Nat) :
    Option (List Example × Stats × Nat) :=
  match subs with
  | [] => some acc
  | sub :: rest =>
    match sub with
    | .obj subfields =>
      match pyIter ((subfields.lookup "conceptos").getD (JVal.arr [])) with
      | none => none
      | some conceptos =>
        match walkConceptos conceptos ministerioNombreStr numExamples is acc with
        | none => none
        | some acc1 =>
          walkSubCategorias rest ministerioNombreStr numExamples is acc1
    | _ => none

def walkCategorias (categorias : List JVal) (ministerioNombreStr : String)
    (numExamples : Nat) (is : Nat → Nat) (acc : List Example × Stats × Nat) :
    Option (List Example × Stats × Nat) :=
  match categorias with
  | [] => some acc
  | categoria :: rest =>
    match categoria with
    | .obj catfields =>
      match pyIter ((catfields.lookup "sub_categorias").getD (JVal.arr [])) with
      | none => none
      | some subs =>
        match walkSubCategorias subs ministerioNombreStr numExamples is acc with
        | none => none
        | some acc1 => walkCategorias rest ministerioNombreStr numExamples is acc1
    | _ => none

def walkSectores (sectores : List JVal) (ministerioNombreStr : String)
    (numExamples : Nat) (is : Nat → Nat) (acc : List Example × Stats × Nat) :
    Option (List Example × Stats × Nat) :=
  match sectores with
  | [] => some acc
  | sector :: rest =>
    match sector with
    | .obj sfields =>
      match pyIter ((sfields.lookup "categorias").getD (JVal.arr [])) with
      | none => none
      | some categorias =>
        match walkCategorias categorias ministerioNombreStr numExamples is acc with
        | none => none
        | some acc1 => walkSectores rest ministerioNombreStr numExamples is acc1
    | _ => none

def conceptWalk (mfields : List (String × JVal)) (ministerioNombreStr : String)
    (numExamples : Nat) (is : Nat → Nat) (ii : Nat) (stats : Stats) :
    Option (List Example × Stats × Nat) :=
  match pyIter ((mfields.lookup "sectores").getD (JVal.arr [])) with
  | none => none
  | some sectores =>
    walkSectores sectores ministerioNombreStr numExamples is ([], stats, ii)

/-- The per-ministry body of `generate_corpus` (lines 1803-1830). -/
def processMinisterioNode (ministerio : JVal) (numExamples : Nat)
    (is : Nat → Nat) (ii : Nat) (stats : Stats) :
    Option (List Example × Stats × Nat) :=
  match ministerio with
  | .obj mfields =>
    let ministerioIdV := (mfields.lookup "id").getD (JVal.str "")
    let ministerioNombreV := (mfields.lookup "nombre").getD (JVal.str "")
    match processMinisterio ministerio is ii stats with
    | none => none
    | some (mexamples, stats1, ii1) =>
      let ministerioNombreStr :=
        match ministerioNombreV with
        | .obj nfields => pyStrOf ((nfields.lookup "es").getD ministerioIdV)
        | v => pyStrOf v
      match conceptWalk mfields ministerioNombreStr numExamples is ii1 stats1 with
      | none => none
      | some (cexamples, stats2, ii2) =>
        some (mexamples ++ cexamples, stats2, ii2)
  | _ => none

/-- The `for ministerio in data` loop of `generate_corpus`
    (lines 1803-1830). -/
def processMinisterioNodes (ministerios : List JVal) (numExamples : Nat)
    (is : Nat → Nat) (acc : List Example × Stats × Nat) :
    Option (List Example × Stats × Nat) :=
  match ministerios with
  | [] => some acc
  | ministerio :: rest =>
    match processMinisterioNode ministerio numExamples is acc.2.2 acc.2.1 with
    | none => none
    | some (examples, stats1, ii1) =>
      processMinisterioNodes rest numExamples is
        (acc.1 ++ examples, stats1, ii1)

/-- `generate_corpus` (lines 1789-1841).  Result: `none` for an uncaught
    exception; `some (false, …)` for the early `return False` on falsy data;
    `some (true, corpus, stats)` for a successful run. -/
def generateCorpus (loaded : Option JVal) (numExamples : Nat)
    (is : Nat → Nat) : Option (Bool × List Example × Stats) :=
  let data := loadData loaded
  if jFalsy data then some (false, [], initStats)
  else
    match pyIter data with
    | none => none
    | some ministerios =>
      match processMinisterioNodes ministerios numExamples is
          ([], initStats, 0) with
      | none => none
      | some (corpus, stats, ii) =>
        match generateGreetingExamples is ii stats with
        | none => none
        | some (gexamples, stats', _) =>
          some (true, corpus ++ gexamples, stats')

/-- `save_corpus` (lines 1843-1865): refuses an empty corpus; otherwise the
    success flag depends on the write succeeding (`ioOk`), and the written
    document is the corpus itself. -/
def saveCorpus (corpus : List Example) (ioOk : Bool) :
    Bool × Option (List Example) :=
  if corpus.isEmpty then (false, none)
  else if ioOk then (true, some corpus)
  else (false, none)

end V2

/-! ## V1: the augmentation-capable generator (file lines 1-1085) -/

namespace V1

/-- Generator configuration (`__init__`, lines 295-320). -/
structure Config where
  numExamples : Nat
  augmentation_enabled : Bool
  augmentation_prob : ℚ

/-- The interrogative-prefix table of augmentation step 1 (lines 355-359),
    accessed with `prefixes.get(language, [])`. -/
def questionPrefixesFor (lang : String) : List String :=
  if lang = "es" then ["¿Cuál es", "¿Cuánto", "¿Qué", "¿Cómo", "¿Dónde", "¿A qué"]
  else if lang = "fr" then ["Quel est", "Combien", "Comment", "Quels sont", "Où", "À quel"]
  else if lang = "en" then ["What is", "How much", "How", "What are", "Where", "Which"]
  else []

/-- Augmentation step 1 (lines 353-370): strip the first matching
    interrogative prefix, then a following leading article (per-language
    `elif` chain), with a `break` after the first matching prefix. -/
def augPrefixStep (lang : String) (q : List Char) : List Char :=
  match (questionPrefixesFor lang).find? (fun p => pyStartsWith q p.data) with
  | none => q
  | some pre =>
    let q1 := pyStripL (q.drop pre.length)
    if lang = "es" then
      if pyStartsWith q1 "el ".data || pyStartsWith q1 "la ".data ||
         pyStartsWith q1 "los ".data || pyStartsWith q1 "las ".data then
        pyStripL (q1.drop 3)
      else q1
    else if lang = "fr" then
      if pyStartsWith q1 "le ".data || pyStartsWith q1 "la ".data ||
         pyStartsWith q1 "les ".data || pyStartsWith q1 "l\x27".data then
        if ¬pyStartsWith q1 "l\x27".data then pyStripL (q1.drop 3)
        else pyStripL (q1.drop 2)
      else q1
    else if lang = "en" then
      if pyStartsWith q1 "the ".data then pyStripL (q1.drop 4) else q1
    else q1

def typoAlphabet : List Char := "abcdefghijklmnopqrstuvwxyz".data

/-- Augmentation step 2 body (lines 374-396): one character-level typo, with
    the error type drawn among replace/swap/omit/double, each guarded by its
    own length precondition; indexing is bounds-guarded (`none` would be a
    Python `IndexError`). -/
def augTypoApply (q : List Char) (is : Nat → Nat) (ii : Nat) :
    Option (List Char × Nat) :=
  if q.length > 3 then
    match pyChoice ["replace", "swap", "omit", "double"] (is ii) with
    | none => none
    | some errorType =>
      if errorType = "replace" ∧ q.length > 0 then
        match pyChoice typoAlphabet (is (ii + 2)) with
        | none => none
        | some c =>
          match pySet q (pyRandint (q.length - 1) (is (ii + 1))) c with
          | none => none
          | some q' => some (q', ii + 3)
      else if errorType = "swap" ∧ q.length > 2 then
        match pyGet q (pyRandint (q.length - 2) (is (ii + 1))) with
        | none => none
        | some a =>
          match pyGet q (pyRandint (q.length - 2) (is (ii + 1)) + 1) with
          | none => none
          | some b =>
            match pySet q (pyRandint (q.length - 2) (is (ii + 1))) b with
            | none => none
            | some q1 =>
              match pySet q1 (pyRandint (q.length - 2) (is (ii + 1)) + 1) a with
              | none => none
              | some q2 => some (q2, ii + 2)
      else if errorType = "omit" ∧ q.length > 3 then
        match pyPop q (pyRandint (q.length - 1) (is (ii + 1))) with
        | none => none
        | some q' => some (q', ii + 2)
      else if errorType = "double" ∧ q.length > 1 then
        match pyGet q (pyRandint (q.length - 1) (is (ii + 1))) with
        | none => none
        | some c =>
          some (pyInsertAt q (pyRandint (q.length - 1) (is (ii + 1))) c, ii + 2)
      else some (q, ii + 1)
  else some (q, ii)

/-- The accent-substitution table of step 3 (lines 400-406). -/
def accentsTable : List (Char × Char) :=
  [('á', 'a'), ('é', 'e'), ('í', 'i'), ('ó', 'o'), ('ú', 'u'),
   ('à', 'a'), ('è', 'e'), ('ì', 'i'), ('ò', 'o'), ('ù', 'u'),
   ('â', 'a'), ('ê', 'e'), ('î', 'i'), ('ô', 'o'), ('û', 'u'),
   ('ä', 'a'), ('ë', 'e'), ('ï', 'i'), ('ö', 'o'), ('ü', 'u'),
   ('ñ', 'n'), ('ç', 'c')]

/-- Augmentation step 3 body (lines 400-408): sequential `str.replace` over
    the accent table (single-character replacements). -/
def augAccentsApply (q : List Char) : List Char :=
  accentsTable.foldl (fun acc p => pyReplaceChar p.1 p.2 acc) q

/-- Augmentation step 4 body (lines 412-415): strip a leading `¿` (Spanish)
    and one trailing `?` or `.`. -/
def augPunctApply (lang : String) (q : List Char) : List Char :=
  let q := if lang = "es" ∧ pyStartsWith q "¿".data then q.drop 1 else q
  if q.getLast? = some '?' ∨ q.getLast? = some '.' then q.dropLast else q

/-- Augmentation step 5 body (lines 419-425): when the question has more
    than 2 words, keep either the first two or the last two (one further
    `random.random()` draw). -/
def augShortenApply (q : List Char) (fs : Nat → ℚ) (fi : Nat) :
    List Char × Nat :=
  let words := pySplitWs q
  if words.length > 2 then
    if fs fi < 1/2 then (pyJoinSpace (words.take 2), fi + 1)
    else (pyJoinSpace (words.drop (words.length - 2)), fi + 1)
  else (q, fi)

def langHasLocalisms (lang : String) : Bool := (GE_LOCALISMS.lookup lang).isSome

/-- Augmentation step 6 body (lines 430-434): replace one random word by a
    random localism. -/
def augLocalismApply (lang : String) (q : List Char) (is : Nat → Nat)
    (ii : Nat) : Option (List Char × Nat) :=
  let words := pySplitWs q
  if words.length > 2 then
    let idx := pyRandint (words.length - 1) (is ii)
    match pyChoice (tplOf GE_LOCALISMS lang) (is (ii + 1)) with
    | none => none
    | some w =>
      match pySet words idx w.data with
      | none => none
      | some words' => some (pyJoinSpace words', ii + 2)
  else some (q, ii)

/-- Final capitalization inside `augment_question` (lines 439-440). -/
def capAugFirst (q : List Char) : List Char :=
  match q with
  | [] => []
  | c :: rest => pyToUpper c :: rest

/-- Steps 3-6 of the mutation pipeline (lines 399-434), applied to the
    result `q2` of the typo step. -/
def augMutateTail (p : ℚ) (lang : String) (q2 : List Char) (fs : Nat → ℚ)
    (is : Nat → Nat) (fi ii2 : Nat) : Option (List Char × Nat × Nat) :=
  let q3 := if fs (fi + 3) < p ∧ (lang = "es" ∨ lang = "fr") then
    augAccentsApply q2 else q2
  let q4 := if fs (fi + 4) < p then augPunctApply lang q3 else q3
  match (if fs (fi + 5) < p / 2 then augShortenApply q4 fs (fi + 6)
      else (q4, fi + 6)) with
  | (q5, fi5) =>
    match (if fs fi5 < p / 3 ∧ langHasLocalisms lang then
        augLocalismApply lang q5 is ii2 else some (q5, ii2)) with
    | none => none
    | some (q6, ii6) => some (q6, fi5 + 1, ii6)

/-- The mutation pipeline of `augment_question`, steps 1-6 (lines 350-434):
    each step is gated by one `random.random()` draw (`fi` is the position of
    the already-consumed clean-question gate draw, so the step gates read
    positions `fi+1` … `fi+5` and onward). -/
def augMutate (p : ℚ) (lang : String) (question : List Char) (fs : Nat → ℚ)
    (is : Nat → Nat) (fi ii : Nat) : Option (List Char × Nat × Nat) :=
  let q1 := if fs (fi + 1) < p then augPrefixStep lang question else question
  match (if fs (fi + 2) < p then augTypoApply q1 is ii else some (q1, ii)) with
  | none => none
  | some (q2, ii2) => augMutateTail p lang q2 fs is fi ii2

/-- The final check of `augment_question` (lines 436-443): return the
    mutated string only if it differs from the original and has length > 3,
    capitalizing its first character when alphabetic; otherwise return the
    original. -/
def augFinish (original m : List Char) (fi ii : Nat) :
    Option (List Char × Nat × Nat) :=
  if m ≠ original ∧ m.length > 3 then
    some ((if m ≠ [] ∧ pyIsAlpha (m.headD ' ') then capAugFirst m else m),
      fi, ii)
  else some (original, fi, ii)

/-- `augment_question` (lines 325-443).  `p` is the effective augmentation
    probability (the `augmentation_prob=None` default resolves to
    `self.augmentation_prob` at the call sites).  `fi`/`ii` index the float
    and integer draw streams; the returned counters expose exactly how many
    draws were consumed. -/
def augmentQuestion (enabled : Bool) (p : ℚ) (lang : String)
    (question : List Char) (fs : Nat → ℚ) (is : Nat → Nat) (fi ii : Nat) :
    Option (List Char × Nat × Nat) :=
  if ¬enabled then some (question, fi, ii)
  else if fs fi > 1/2 then some (question, fi + 1, ii)
  else
    match augMutate p lang question fs is fi ii with
    | none => none
    | some (m, fi6, ii6) => augFinish question m fi6 ii6

end V1

namespace V1

/-- Mutable generator state threaded through `V1`: the `self.stats` counters
    and the positions reached in the two draw streams. -/
structure GenSt where
  stats : Stats
  fi : Nat
  ii : Nat

/-- The augmented-emission block repeated after every original example
    (e.g. lines 612-634): call `augment_question` on the (capitalized)
    question and, when the result differs, append one augmented example and
    bump the augmented/language/total counters.  `mkEx` builds the
    site-specific example record from the augmented question. -/
def emitAugmented (cfg : Config) (p : ℚ) (lang : String) (question : String)
    (mkEx : String → Example) (fs : Nat → ℚ) (is : Nat → Nat) (st : GenSt) :
    Option (List Example × GenSt) :=
  if cfg.augmentation_enabled then
    match augmentQuestion cfg.augmentation_enabled p lang question.data fs is
        st.fi st.ii with
    | none => none
    | some (aqL, fi', ii') =>
      let aq : String := ⟨aqL⟩
      if aq ≠ question then
        some ([mkEx aq], { stats := addAugmented lang st.stats, fi := fi', ii := ii' })
      else some ([], { st with fi := fi', ii := ii' })
  else some ([], st)

/-- The response-classification chain of `V1._process_concepto` as it stands
    in the executable region (lines 567-588): precio → ministerio →
    informacion_general.  (The documents/procedure branches of this copy are
    the displaced non-executable fragment at lines 1085-1103.) -/
def classifyQuestionTemplate (tpl : String) : String :=
  if hasTrigger tpl precioTriggers then "precio"
  else if hasTrigger tpl ministerioTriggers then "ministerio"
  else "informacion_general"

/-- The response text built in the branch selected by
    `V1.classifyQuestionTemplate` (lines 567-588). -/
def buildConceptResponse (category lang nombreS ministerioS tasaExpS tasaRenS :
    String) : String :=
  if category = "precio" then
    pyFormat (pyFormat (pyFormat (RESPONSE_TEMPLATES "precio" lang)
      "concepto" nombreS) "tasa_expedicion" tasaExpS) "tasa_renovacion" tasaRenS
  else if category = "ministerio" then
    pyFormat (pyFormat (RESPONSE_TEMPLATES "ministerio" lang)
      "concepto" nombreS) "ministerio" ministerioS
  else
    pyFormat (pyFormat (pyFormat (pyFormat
      (RESPONSE_TEMPLATES "informacion_general" lang)
      "concepto" nombreS) "ministerio" ministerioS)
      "tasa_expedicion" tasaExpS) "tasa_renovacion" tasaRenS

/-- The `for i in range(self.num_examples_per_concept)` loop of
    `V1._process_concepto` (lines 561-634), emitting an original example and
    possibly an augmented companion per iteration. -/
def conceptExamplesLoop (cfg : Config) (lang conceptoIdS nombreS ministerioS
    tasaExpS tasaRenS : String) (i n : Nat) (fs : Nat → ℚ) (is : Nat → Nat)
    (st : GenSt) : Option (List Example × GenSt) :=
  match n with
  | 0 => some ([], st)
  | n + 1 =>
    match pyChoice (tplOf QUESTION_TEMPLATES lang) (is st.ii) with
    | none => none
    | some question_template =>
      let question := capitalizeFirstLetter
        (pyFormat question_template "concepto" nombreS)
      let category := classifyQuestionTemplate question_template
      let response := capitalizeFirstLetter
        (buildConceptResponse category lang nombreS ministerioS tasaExpS tasaRenS)
      let exOrig : Example :=
        { id := conceptoIdS ++ "_" ++ lang ++ "_" ++ toString i ++ "_orig",
          language := lang,
          concept_id := conceptoIdS,
          question := question,
          answer := response,
          ministry := some ministerioS,
          query_type := "concepto",
          keyword := none,
          augmented := some false }
      let st := { st with stats := addOriginal lang st.stats, ii := st.ii + 1 }
      let mkAug : String → Example := fun aq =>
        { id := conceptoIdS ++ "_" ++ lang ++ "_" ++ toString i ++ "_aug",
          language := lang,
          concept_id := conceptoIdS,
          question := aq,
          answer := response,
          ministry := some ministerioS,
          query_type := "concepto",
          keyword := none,
          augmented := some true }
      match emitAugmented cfg cfg.augmentation_prob lang question mkAug fs is st with
      | none => none
      | some (augExs, st1) =>
        match conceptExamplesLoop cfg lang conceptoIdS nombreS ministerioS
            tasaExpS tasaRenS (i + 1) n fs is st1 with
        | none => none
        | some (rest, st2) => some (exOrig :: augExs ++ rest, st2)

/-- The keyword loop of `V1._process_concepto` (lines 641-702). -/
def keywordExamplesLoop (cfg : Config) (lang conceptoIdS nombreS ministerioS :
    String) (keywords : List String) (n : Nat) (fs : Nat → ℚ)
    (is : Nat → Nat) (st : GenSt) : Option (List Example × GenSt) :=
  match n with
  | 0 => some ([], st)
  | n + 1 =>
    match pyChoice keywords (is st.ii) with
    | none => none
    | some keyword =>
      if pyStrip keyword = "" then
        keywordExamplesLoop cfg lang conceptoIdS nombreS ministerioS keywords n
          fs is { st with ii := st.ii + 1 }
      else
        match pyChoice (tplOf KEYWORD_QUESTION_TEMPLATES lang) (is (st.ii + 1)) with
        | none => none
        | some template =>
          let question := capitalizeFirstLetter
            (pyFormat template "palabra_clave" (pyStrip keyword))
          let response := capitalizeFirstLetter
            (pyFormat (pyFormat (RESPONSE_TEMPLATES "keyword" lang)
              "palabra_clave" (pyStrip keyword)) "conceptos" nombreS)
          let idx := if keywords.contains keyword then keywords.indexOf keyword else 0
          let exOrig : Example :=
            { id := conceptoIdS ++ "_" ++ lang ++ "_kw_" ++ toString idx ++ "_orig",
              language := lang,
              concept_id := conceptoIdS,
              question := question,
              answer := response,
              ministry := some ministerioS,
              query_type := "keyword",
              keyword := some keyword,
              augmented := some false }
          let st := { st with stats := addOriginal lang st.stats, ii := st.ii + 2 }
          let mkAug : String → Example := fun aq =>
            { id := conceptoIdS ++ "_" ++ lang ++ "_kw_" ++ toString idx ++ "_aug",
              language := lang,
              concept_id := conceptoIdS,
              question := aq,
              answer := response,
              ministry := some ministerioS,
              query_type := "keyword",
              keyword := some keyword,
              augmented := some true }
          match emitAugmented cfg cfg.augmentation_prob lang question mkAug fs is st with
          | none => none
          | some (augExs, st1) =>
            match keywordExamplesLoop cfg lang conceptoIdS nombreS ministerioS
                keywords n fs is st1 with
            | none => none
            | some (rest, st2) => some (exOrig :: augExs ++ rest, st2)

/-- The per-language body of `V1._process_concepto` (lines 548-702). -/
def processConceptoLang (cfields : List (String × JVal))
    (nombres pkDict : List (String × JVal)) (conceptoIdV : JVal)
    (ministerioNombre : String) (cfg : Config) (lang : String)
    (fs : Nat → ℚ) (is : Nat → Nat) (st : GenSt) :
    Option (List Example × GenSt) :=
  let nombre := resolveLocalized nombres lang conceptoIdV
  if jFalsy nombre then some ([], st)
  else
    let conceptoIdS := pyStrOf conceptoIdV
    let tasaExpS := pyStrOf ((cfields.lookup "tasa_expedicion").getD (JVal.str "N/A"))
    let tasaRenS := pyStrOf ((cfields.lookup "tasa_renovacion").getD (JVal.str "N/A"))
    match conceptExamplesLoop cfg lang conceptoIdS (pyStrOf nombre)
        ministerioNombre tasaExpS tasaRenS 0 cfg.numExamples fs is st with
    | none => none
    | some (examples, st1) =>
      match V2.keywordsFor pkDict lang with
      | none => none
      | some keywords =>
        if keywords.isEmpty then some (examples, st1)
        else
          match keywordExamplesLoop cfg lang conceptoIdS (pyStrOf nombre)
              ministerioNombre keywords (min 2 keywords.length) fs is st1 with
          | none => none
          | some (kwExamples, st2) => some (examples ++ kwExamples, st2)

/-- The `for lang in languages` loop of `V1._process_concepto`
    (lines 548-702). -/
def processConceptoLangs (cfields nombres pkDict : List (String × JVal))
    (conceptoIdV : JVal) (ministerioNombre : String) (cfg : Config)
    (langs : List String) (fs : Nat → ℚ) (is : Nat → Nat) (st : GenSt) :
    Option (List Example × GenSt) :=
  match langs with
  | [] => some ([], st)
  | lang :: rest =>
    match processConceptoLang cfields nombres pkDict conceptoIdV
        ministerioNombre cfg lang fs is st with
    | none => none
    | some (examples, st1) =>
      match processConceptoLangs cfields nombres pkDict conceptoIdV
          ministerioNombre cfg rest fs is st1 with
      | none => none
      | some (more, st2) => some (examples ++ more, st2)

/-- `V1._process_concepto` (lines 475-704), at the default
    `languages=None`.  The `documentos_requeridos`/`procedimiento` localized
    dicts (lines 517-536) are computed by the source but never consumed in
    its executable region (their response branches are the displaced
    fragment), so they are not materialized here; their construction draws
    no randomness and has no other effect. -/
def processConcepto (concepto : JVal) (ministerioNombre : String)
    (cfg : Config) (fs : Nat → ℚ) (is : Nat → Nat) (st : GenSt) :
    Option (List Example × GenSt) :=
  match concepto with
  | .obj cfields =>
    let conceptoIdV := (cfields.lookup "id").getD (JVal.str "")
    let palabras_clave :=
      match (cfields.lookup "palabras_clave").getD (JVal.str "") with
      | .str s => pySplitComma s
      | _ => []
    let nombres := localizedDict cfields "nombre" (JVal.str "")
    let pkDict :=
      match (cfields.lookup "palabras_clave").getD (JVal.str "") with
      | .obj fields => fields
      | _ =>
        if palabras_clave.isEmpty then []
        else supportedLangs.map (fun lang => (lang, JVal.arr (palabras_clave.map JVal.str)))
    processConceptoLangs cfields nombres pkDict conceptoIdV ministerioNombre
      cfg supportedLangs fs is st
  | _ => none

end V1

namespace V1

/-- The `for i, template in enumerate(templates[:2])` loop of
    `V1._process_ministerio` (lines 788-841), with augmented companions. -/
def ministerioExamplesLoop (cfg : Config) (lang ministerioIdS nombreLangS
    conceptsFormatted : String) (templates : List String) (i : Nat)
    (fs : Nat → ℚ) (is : Nat → Nat) (st : GenSt) :
    Option (List Example × GenSt) :=
  match templates with
  | [] => some ([], st)
  | template :: rest =>
    let question := capitalizeFirstLetter
      (pyFormat template "ministerio" nombreLangS)
    let response := capitalizeFirstLetter
      (pyFormat (pyFormat (RESPONSE_TEMPLATES "ministerio_general" lang)
        "ministerio" nombreLangS) "conceptos" conceptsFormatted)
    let exOrig : Example :=
      { id := ministerioIdS ++ "_" ++ lang ++ "_general_" ++ toString i ++ "_orig",
        language := lang,
        concept_id := ministerioIdS,
        question := question,
        answer := response,
        ministry := some nombreLangS,
        query_type := "ministerio_general",
        keyword := none,
        augmented := some false }
    let st := { st with stats := addOriginal lang st.stats }
    let mkAug : String → Example := fun aq =>
      { id := ministerioIdS ++ "_" ++ lang ++ "_general_" ++ toString i ++ "_aug",
        language := lang,
        concept_id := ministerioIdS,
        question := aq,
        answer := response,
        ministry := some nombreLangS,
        query_type := "ministerio_general",
        keyword := none,
        augmented := some true }
    match emitAugmented cfg cfg.augmentation_prob lang question mkAug fs is st with
    | none => none
    | some (augExs, st1) =>
      match ministerioExamplesLoop cfg lang ministerioIdS nombreLangS
          conceptsFormatted rest (i + 1) fs is st1 with
      | none => none
      | some (rest', st2) => some (exOrig :: augExs ++ rest', st2)

/-- The per-language body of `V1._process_ministerio` (lines 767-841). -/
def processMinisterioLang (cfg : Config) (mnombres : List (String × JVal))
    (ministerioIdV : JVal) (dicts : List (List (String × JVal)))
    (lang : String) (fs : Nat → ℚ) (is : Nat → Nat) (st : GenSt) :
    Option (List Example × GenSt) :=
  let nombreLangS := pyStrOf (resolveLocalized mnombres lang ministerioIdV)
  let concept_names := V2.conceptNamesFor dicts lang
  if concept_names.isEmpty then some ([], st)
  else
    let k := min 5 concept_names.length
    let sample_concepts := pySample concept_names k is st.ii
    let conceptsFormatted := formatList sample_concepts lang
    let templates := (tplOf GENERAL_QUESTION_TEMPLATES lang).take 2
    ministerioExamplesLoop cfg lang (pyStrOf ministerioIdV) nombreLangS
      conceptsFormatted templates 0 fs is { st with ii := st.ii + k }

/-- The `for lang in languages` loop of `V1._process_ministerio`
    (lines 767-841). -/
def processMinisterioLangs (cfg : Config) (mnombres : List (String × JVal))
    (ministerioIdV : JVal) (dicts : List (List (String × JVal)))
    (langs : List String) (fs : Nat → ℚ) (is : Nat → Nat) (st : GenSt) :
    Option (List Example × GenSt) :=
  match langs with
  | [] => some ([], st)
  | lang :: rest =>
    match processMinisterioLang cfg mnombres ministerioIdV dicts lang fs is st with
    | none => none
    | some (examples, st1) =>
      match processMinisterioLangs cfg mnombres ministerioIdV dicts rest fs is st1 with
      | none => none
      | some (more, st2) => some (examples ++ more, st2)

/-- `V1._process_ministerio` (lines 706-843), at the default
    `languages=None`.  The concept-name collection walk is shared with `V2`
    (identical source text). -/
def processMinisterio (ministerio : JVal) (cfg : Config) (fs : Nat → ℚ)
    (is : Nat → Nat) (st : GenSt) : Option (List Example × GenSt) :=
  match ministerio with
  | .obj mfields =>
    let ministerioIdV := (mfields.lookup "id").getD (JVal.str "")
    let mnombres := localizedDict mfields "nombre" (JVal.str "")
    match V2.collectConceptNameDicts mfields with
    | none => none
    | some dicts =>
      processMinisterioLangs cfg mnombres ministerioIdV dicts supportedLangs
        fs is st
  | _ => none

/-- The greeting half of `V1._generate_greeting_examples` (lines 862-906):
    augmented companions use half the configured probability. -/
def greetingLoop (cfg : Config) (lang : String) (greetings : List String)
    (i : Nat) (fs : Nat → ℚ) (is : Nat → Nat) (st : GenSt) :
    Option (List Example × GenSt) :=
  match greetings with
  | [] => some ([], st)
  | greeting :: rest =>
    match pyChoice (tplOf GREETING_RESPONSES lang) (is st.ii) with
    | none => none
    | some response =>
      let exOrig : Example :=
        { id := "greeting_" ++ lang ++ "_" ++ toString i ++ "_orig",
          language := lang,
          concept_id := "greeting",
          question := greeting,
          answer := response,
          ministry := none,
          query_type := "greeting",
          keyword := none,
          augmented := some false }
      let st := { st with stats := addOriginal lang st.stats, ii := st.ii + 1 }
      let mkAug : String → Example := fun aq =>
        { id := "greeting_" ++ lang ++ "_" ++ toString i ++ "_aug",
          language := lang,
          concept_id := "greeting",
          question := aq,
          answer := response,
          ministry := none,
          query_type := "greeting",
          keyword := none,
          augmented := some true }
      match emitAugmented cfg (cfg.augmentation_prob / 2) lang greeting mkAug
          fs is st with
      | none => none
      | some (augExs, st1) =>
        match greetingLoop cfg lang rest (i + 1) fs is st1 with
        | none => none
        | some (rest', st2) => some (exOrig :: augExs ++ rest', st2)

/-- The thanks half of `V1._generate_greeting_examples` (lines 908-950). -/
def thanksLoop (cfg : Config) (lang : String) (thanks : List String)
    (i : Nat) (fs : Nat → ℚ) (is : Nat → Nat) (st : GenSt) :
    Option (List Example × GenSt) :=
  match thanks with
  | [] => some ([], st)
  | t :: rest =>
    match pyChoice (tplOf THANKS_RESPONSES lang) (is st.ii) with
    | none => none
    | some response =>
      let exOrig : Example :=
        { id := "thanks_" ++ lang ++ "_" ++ toString i ++ "_orig",
          language := lang,
          concept_id := "thanks",
          question := t,
          answer := response,
          ministry := none,
          query_type := "thanks",
          keyword := none,
          augmented := some false }
      let st := { st with stats := addOriginal lang st.stats, ii := st.ii + 1 }
      let mkAug : String → Example := fun aq =>
        { id := "thanks_" ++ lang ++ "_" ++ toString i ++ "_aug",
          language := lang,
          concept_id := "thanks",
          question := aq,
          answer := response,
          ministry := none,
          query_type := "thanks",
          keyword := none,
          augmented := some true }
      match emitAugmented cfg (cfg.augmentation_prob / 2) lang t mkAug fs is st with
      | none => none
      | some (augExs, st1) =>
        match thanksLoop cfg lang rest (i + 1) fs is st1 with
        | none => none
        | some (rest', st2) => some (exOrig :: augExs ++ rest', st2)

def generateGreetingLangs (cfg : Config) (langs : List String)
    (fs : Nat → ℚ) (is : Nat → Nat) (st : GenSt) :
    Option (List Example × GenSt) :=
  match langs with
  | [] => some ([], st)
  | lang :: rest =>
    match greetingLoop cfg lang (tplOf GREETING_TEMPLATES lang) 0 fs is st with
    | none => none
    | some (gs, st1) =>
      match thanksLoop cfg lang (tplOf THANKS_TEMPLATES lang) 0 fs is st1 with
      | none => none
      | some (ts, st2) =>
        match generateGreetingLangs cfg rest fs is st2 with
        | none => none
        | some (more, st3) => some (gs ++ ts ++ more, st3)

/-- `V1._generate_greeting_examples` (lines 845-952). -/
def generateGreetingExamples (cfg : Config) (fs : Nat → ℚ) (is : Nat → Nat)
    (st : GenSt) : Option (List Example × GenSt) :=
  generateGreetingLangs cfg supportedLangs fs is st

/-- The sector/category/sub-category/concept walk of `V1.generate_corpus`
    (lines 984-999), one recursion per nesting level. -/
def walkConceptos (conceptos : List JVal) (ministerioNombreStr : String)
    (cfg : Config) (fs : Nat → ℚ) (is : Nat → Nat)
    (acc : List Example × GenSt) : Option (List Example × GenSt) :=
  match conceptos with
  | [] => some acc
  | concepto :: rest =>
    match processConcepto concepto ministerioNombreStr cfg fs is acc.2 with
    | none => none
    | some (examples, st1) =>
      walkConceptos rest ministerioNombreStr cfg fs is
        (acc.1 ++ examples,
          { st1 with stats := { st1.stats with concepts := st1.stats.concepts + 1 } })

def walkSubCategorias (subs : List JVal) (ministerioNombreStr : String)
    (cfg : Config) (fs : Nat → ℚ) (is : Nat → Nat)
    (acc : List Example × GenSt) : Option (List Example × GenSt) :=
  match subs with
  | [] => some acc
  | sub :: rest =>
    match sub with
    | .obj subfields =>
      match pyIter ((subfields.lookup "conceptos").getD (JVal.arr [])) with
      | none => none
      | some conceptos =>
        match walkConceptos conceptos ministerioNombreStr cfg fs is acc with
        | none => none
        | some acc1 => walkSubCategorias rest ministerioNombreStr cfg fs is acc1
    | _ => none

def walkCategorias (categorias : List JVal) (ministerioNombreStr : String)
    (cfg : Config) (fs : Nat → ℚ) (is : Nat → Nat)
    (acc : List Example × GenSt) : Option (List Example × GenSt) :=
  match categorias with
  | [] => some acc
  | categoria :: rest =>
    match categoria with
    | .obj catfields =>
      match pyIter ((catfields.lookup "sub_categorias").getD (JVal.arr [])) with
      | none => none
      | some subs =>
        match walkSubCategorias subs ministerioNombreStr cfg fs is acc with
        | none => none
        | some acc1 => walkCategorias rest ministerioNombreStr cfg fs is acc1
    | _ => none

def walkSectores (sectores : List JVal) (ministerioNombreStr : String)
    (cfg : Config) (fs : Nat → ℚ) (is : Nat → Nat)
    (acc : List Example × GenSt) : Option (List Example × GenSt) :=
  match sectores with
  | [] => some acc
  | sector :: rest =>
    match sector with
    | .obj sfields =>
      match pyIter ((sfields.lookup "categorias").getD (JVal.arr [])) with
      | none => none
      | some categorias =>
        match walkCategorias categorias ministerioNombreStr cfg fs is acc with
        | none => none
        | some acc1 => walkSectores rest ministerioNombreStr cfg fs is acc1
    | _ => none

def conceptWalk (mfields : List (String × JVal)) (ministerioNombreStr : String)
    (cfg : Config) (fs : Nat → ℚ) (is : Nat → Nat) (st : GenSt) :
    Option (List Example × GenSt) :=
  match pyIter ((mfields.lookup "sectores").getD (JVal.arr [])) with
  | none => none
  | some sectores => walkSectores sectores ministerioNombreStr cfg fs is ([], st)

/-- The per-ministry body of `V1.generate_corpus` (lines 972-999). -/
def processMinisterioNode (ministerio : JVal) (cfg : Config) (fs : Nat → ℚ)
    (is : Nat → Nat) (st : GenSt) : Option (List Example × GenSt) :=
  match ministerio with
  | .obj mfields =>
    let ministerioIdV := (mfields.lookup "id").getD (JVal.str "")
    let ministerioNombreV := (mfields.lookup "nombre").getD (JVal.str "")
    match processMinisterio ministerio cfg fs is st with
    | none => none
    | some (mexamples, st1) =>
      let ministerioNombreStr :=
        match ministerioNombreV with
        | .obj nfields => pyStrOf ((nfields.lookup "es").getD ministerioIdV)
        | v => pyStrOf v
      match conceptWalk mfields ministerioNombreStr cfg fs is st1 with
      | none => none
      | some (cexamples, st2) => some (mexamples ++ cexamples, st2)
  | _ => none

/-- The `for ministerio in data` loop of `V1.generate_corpus`
    (lines 972-999). -/
def processMinisterioNodes (ministerios : List JVal) (cfg : Config)
    (fs : Nat → ℚ) (is : Nat → Nat) (acc : List Example × GenSt) :
    Option (List Example × GenSt) :=
  match ministerios with
  | [] => some acc
  | ministerio :: rest =>
    match processMinisterioNode ministerio cfg fs is acc.2 with
    | none => none
    | some (examples, st1) =>
      processMinisterioNodes rest cfg fs is (acc.1 ++ examples, st1)

/-- `V1.generate_corpus` (lines 954-1012): `none` for an uncaught exception,
    `some (false, …)` for the early `return False` on falsy data,
    `some (true, corpus, stats)` for a successful run. -/
def generateCorpus (loaded : Option JVal) (cfg : Config) (fs : Nat → ℚ)
    (is : Nat → Nat) : Option (Bool × List Example × Stats) :=
  let data := V2.loadData loaded
  if jFalsy data then some (false, [], initStats)
  else
    match pyIter data with
    | none => none
    | some ministerios =>
      match processMinisterioNodes ministerios cfg fs is
          ([], { stats := initStats, fi := 0, ii := 0 }) with
      | none => none
      | some (corpus, st) =>
        match generateGreetingExamples cfg fs is st with
        | none => none
        | some (gexamples, st') => some (true, corpus ++ gexamples, st'.stats)

end V1

/-! ## Claim-side definitions

`precedenceScan` restates the spec's description of the classification (a
first-match scan over the ordered category list) to compare with the code's
if-chain; the remaining definitions are predicates and concrete inputs used
by the theorems. -/

def categoryScanOrder : List (String × List String) :=
  [("precio", precioTriggers), ("documentos", documentosTriggers),
   ("procedimiento", procedimientoTriggers), ("ministerio", ministerioTriggers)]

/-- Modelled from the spec (section 4.3 step b): scan the ordered category
    list and return the first category whose trigger set matches the
    lower-cased template, with `informacion_general` as fallback. -/
def precedenceScan (tpl : String) : String :=
  ((categoryScanOrder.find? (fun p => hasTrigger tpl p.2)).map Prod.fst).getD
    "informacion_general"

/-- The first alphabetic character of `s` is uppercase (vacuously true when
    there is none). -/
def firstAlphaUpper (s : List Char) : Bool :=
  match s.find? (fun c => pyIsAlpha c) with
  | some c => pyIsUpper c
  | none => true

/-- The first character of `s`, if alphabetic, is uppercase. -/
def firstCharUpperIfAlpha (s : List Char) : Bool :=
  match s with
  | [] => true
  | c :: _ => !pyIsAlpha c || pyIsUpper c

/-- The statistics invariants of the claim: the total equals the sum of the
    per-language counters, and augmented examples never exceed the total. -/
def StatsInv (s : Stats) : Prop :=
  s.total_examples = s.lang_es + s.lang_fr + s.lang_en ∧
  s.augmented_examples ≤ s.total_examples

/-- Number of concept nodes visited by the `generate_corpus` traversal
    (same access pattern as the walk; `none` where the walk would raise);
    one recursion per nesting level. -/
def countConceptos (conceptos : List JVal) (n : Nat) : Option Nat :=
  match conceptos with
  | [] => some n
  | concepto :: rest =>
    match concepto with
    | .obj _ => countConceptos rest (n + 1)
    | _ => none

def countSubCategorias (subs : List JVal) (n : Nat) : Option Nat :=
  match subs with
  | [] => some n
  | sub :: rest =>
    match sub with
    | .obj subfields =>
      match pyIter ((subfields.lookup "conceptos").getD (JVal.arr [])) with
      | none => none
      | some conceptos =>
        match countConceptos conceptos n with
        | none => none
        | some n1 => countSubCategorias rest n1
    | _ => none

def countCategorias (categorias : List JVal) (n : Nat) : Option Nat :=
  match categorias with
  | [] => some n
  | categoria :: rest =>
    match categoria with
    | .obj catfields =>
      match pyIter ((catfields.lookup "sub_categorias").getD (JVal.arr [])) with
      | none => none
      | some subs =>
        match countSubCategorias subs n with
        | none => none
        | some n1 => countCategorias rest n1
    | _ => none

def countSectores (sectores : List JVal) (n : Nat) : Option Nat :=
  match sectores with
  | [] => some n
  | sector :: rest =>
    match sector with
    | .obj sfields =>
      match pyIter ((sfields.lookup "categorias").getD (JVal.arr [])) with
      | none => none
      | some categorias =>
        match countCategorias categorias n with
        | none => none
        | some n1 => countSectores rest n1
    | _ => none

/-- Number of concept nodes visited in one ministry. -/
def countConceptsWalk (mfields : List (String × JVal)) : Option Nat :=
  match pyIter ((mfields.lookup "sectores").getD (JVal.arr [])) with
  | none => none
  | some sectores => countSectores sectores 0

/-- Number of concept nodes visited by the full `generate_corpus`
    traversal. -/
def countMinisterios (ministerios : List JVal) (n : Nat) : Option Nat :=
  match ministerios with
  | [] => some n
  | ministerio :: rest =>
    match ministerio with
    | .obj mfields =>
      match countConceptsWalk mfields with
      | none => none
      | some k => countMinisterios rest (n + k)
    | _ => none

def countConcepts (data : JVal) : Option Nat :=
  match pyIter data with
  | none => none
  | some ministerios => countMinisterios ministerios 0

/-- Float-draw stream for the C7 counterexample run: the clean-question gate
    passes (2/5 ≤ 1/2), only the accent-stripping operator fires
    (1/10 < 1/2 at position 3), every other operator draw misses (9/10). -/
def fsC7 : Nat → ℚ := fun n =>
  if n = 0 then 2/5
  else if n = 3 then 1/10
  else 9/10

/-- A concept whose `nombre` mapping has only a French entry: no `"en"` key
    and no `"es"` default, but a non-empty id. -/
def cexConceptNoEs : JVal :=
  JVal.obj [("id", JVal.str "c1"), ("nombre", JVal.obj [("fr", JVal.str "X")])]

/-- A concept with a two-keyword list; with the constant-zero draw stream
    both keyword draws select `"aaaa"`. -/
def cexConceptDupKw : JVal :=
  JVal.obj [("id", JVal.str "c1"), ("nombre", JVal.str "X"),
            ("palabras_clave", JVal.str "aaaa,bbbb")]

/-- A small well-formed ministry used as concrete witness input: two
    concepts sharing the translated name `"X"` plus one named `"Y"`. -/
def witMinisterio : JVal :=
  JVal.obj [("id", JVal.str "m1"), ("nombre", JVal.str "Economia"),
    ("sectores", JVal.arr [JVal.obj [("categorias", JVal.arr [JVal.obj
      [("sub_categorias", JVal.arr [JVal.obj [("conceptos", JVal.arr
        [cexConceptDupKw, cexConceptDupKw,
         JVal.obj [("id", JVal.str "c2"), ("nombre", JVal.str "Y")]])]])]])]])]

/-- A configuration with augmentation disabled (used for witness runs). -/
def witConfigOff : V1.Config :=
  { numExamples := 1, augmentation_enabled := false, augmentation_prob := 3/10 }

/-! ## Lemmas -/

theorem pyIsUpper_pyToUpper {c : Char} (h : pyIsAlpha c = true) :
    pyIsUpper (pyToUpper c) = true := by
  unfold pyIsAlpha at h
  rw [List.any_eq_true] at h
  obtain ⟨p, hp, hpc⟩ := h
  unfold pyToUpper pyIsUpper
  cases hfind : caseTable.find? (fun q => q.1 = c) with
  | some q =>
    have hq : q ∈ caseTable := List.mem_of_find?_eq_some hfind
    rw [List.any_eq_true]
    exact ⟨q, hq, by simp⟩
  | none =>
    cases (Bool.or_eq_true _ _).mp hpc with
    | inl h1 =>
      exfalso
      have := List.find?_eq_none.mp hfind p hp
      simp at this h1
      exact this h1
    | inr h2 =>
      rw [List.any_eq_true]
      refine ⟨p, hp, ?_⟩
      simpa using h2


/-- C1: for every question template, the category chosen by the response
    chain of `_process_concepto` equals the first-match scan over the fixed
    precedence order precio → documentos → procedimiento → ministerio with
    `informacion_general` as fallback (trigger sets scanned over the
    lower-cased template text); in particular a template containing both a
    price trigger and a ministry trigger is always classified precio, never
    ministerio. -/
theorem C1_classification_precedence :
    (∀ tpl : String, V2.classifyQuestionTemplate tpl = precedenceScan tpl) ∧
    (∀ tpl : String, hasTrigger tpl precioTriggers = true →
      hasTrigger tpl ministerioTriggers = true →
      V2.classifyQuestionTemplate tpl = "precio" ∧
      V2.classifyQuestionTemplate tpl ≠ "ministerio") := by
  constructor
  · intro tpl
    unfold V2.classifyQuestionTemplate precedenceScan categoryScanOrder
    cases h1 : hasTrigger tpl precioTriggers <;>
      cases h2 : hasTrigger tpl documentosTriggers <;>
        cases h3 : hasTrigger tpl procedimientoTriggers <;>
          cases h4 : hasTrigger tpl ministerioTriggers <;>
            simp [List.find?, h1, h2, h3, h4]
  · intro tpl h1 _
    have hc : V2.classifyQuestionTemplate tpl = "precio" := by
      unfold V2.classifyQuestionTemplate
      rw [h1]
      rfl
    exact ⟨hc, by rw [hc]; decide⟩

/-- Witness for C1 at a concrete template containing both the price trigger
    `"cuesta"` and the ministry trigger `"ministerio"`. -/
theorem C1_classification_precedence_witness :
    V2.classifyQuestionTemplate "¿Cuánto cuesta el ministerio?" = "precio" ∧
    V2.classifyQuestionTemplate "¿Cuánto cuesta el ministerio?" ≠ "ministerio" :=
  C1_classification_precedence.2 "¿Cuánto cuesta el ministerio?"
    (by decide) (by decide)

/-- C8: with augmentation enabled, when the 50% clean-question gate fires
    (first float draw above 1/2) `augment_question` returns the input
    unchanged having consumed exactly that one draw — the final float
    counter is `fi + 1` and the integer counter is untouched, so the gate
    is evaluated exactly once and no mutation operator runs. -/
theorem C8_clean_gate (p : ℚ) (lang : String) (q : List Char)
    (fs : Nat → ℚ) (is : Nat → Nat) (fi ii : Nat) (h : fs fi > 1/2) :
    V1.augmentQuestion true p lang q fs is fi ii = some (q, fi + 1, ii) := by
  unfold V1.augmentQuestion
  rw [if_neg (by simp), if_pos h]

/-- Witness for C8 at a concrete draw stream whose first float is 3/4. -/
theorem C8_clean_gate_witness :
    (fun _ : Nat => (3/4 : ℚ)) 0 > 1/2 ∧
    V1.augmentQuestion true (3/10) "es" "Hola".data (fun _ => (3/4 : ℚ))
      (fun _ => 0) 0 0 = some ("Hola".data, 0 + 1, 0) :=
  ⟨by norm_num,
   C8_clean_gate (3/10) "es" "Hola".data (fun _ => (3/4 : ℚ)) (fun _ => 0) 0 0
     (by norm_num)⟩

theorem capAugFirst_length (m : List Char) :
    (V1.capAugFirst m).length = m.length := by
  cases m <;> simp [V1.capAugFirst]

theorem augFinish_shape {o m : List Char} {fi ii fi' ii' : Nat} {r : List Char}
    (h : V1.augFinish o m fi ii = some (r, fi', ii')) (hne : r ≠ o) :
    r.length > 3 ∧ firstCharUpperIfAlpha r = true := by
  unfold V1.augFinish at h
  split at h
  case isTrue hc =>
    simp only [Option.some.injEq, Prod.mk.injEq] at h
    obtain ⟨hr, -, -⟩ := h
    subst hr
    split
    case isTrue hcap =>
      obtain ⟨hm3, hlen⟩ := And.intro hc.1 hc.2
      constructor
      · rw [capAugFirst_length]; exact hlen
      · obtain ⟨hne2, halpha⟩ := hcap
        cases m with
        | nil => simp at hlen
        | cons c rest =>
          simp only [List.headD_cons] at halpha
          simp only [V1.capAugFirst, firstCharUpperIfAlpha]
          rw [pyIsUpper_pyToUpper halpha]
          simp
    case isFalse hcap =>
      refine ⟨hc.2, ?_⟩
      cases m with
      | nil => simp at hc
      | cons c rest =>
        have : pyIsAlpha c = false := by
          by_contra hca
          exact hcap ⟨by simp, by simpa using (Bool.not_eq_false _).mp hca⟩
        simp [firstCharUpperIfAlpha, this]
  case isFalse hc =>
    simp only [Option.some.injEq, Prod.mk.injEq] at h
    exact absurd h.1.symm hne

unseal Rat.mul Rat.inv in
/-- C7 counterexample: at probability 1/2 and the draw stream `fsC7`
    (gate passes, only accent stripping fires), `augment_question` on
    `"¿cuánto es?"` returns `"¿cuanto es?"` — a changed output of length > 3
    whose first alphabetic character is NOT uppercase (the source only
    capitalizes position 0, which here is `¿`), refuting the claim as
    stated. -/
theorem C7_counterexample :
    V1.augmentQuestion true (1/2) "es" "¿cuánto es?".data fsC7 (fun _ => 0) 0 0 =
      some ("¿cuanto es?".data, 7, 0) ∧
    "¿cuanto es?".data ≠ "¿cuánto es?".data ∧
    ("¿cuanto es?".data).length > 3 ∧
    firstAlphaUpper "¿cuanto es?".data = false :=
  ⟨by decide, by decide, by decide, by decide⟩

/-- C7 (amended): whenever `augment_question` returns a string different
    from its input, that string has length > 3 and its *first character*,
    if alphabetic, is uppercase; otherwise the original input is returned
    (the result is always either the input itself or such a mutated
    string). -/
theorem C7_augmented_shape (enabled : Bool) (p : ℚ) (lang : String)
    (q r : List Char) (fs : Nat → ℚ) (is : Nat → Nat) (fi ii fi' ii' : Nat)
    (h : V1.augmentQuestion enabled p lang q fs is fi ii = some (r, fi', ii'))
    (hne : r ≠ q) :
    r.length > 3 ∧ firstCharUpperIfAlpha r = true := by
  unfold V1.augmentQuestion at h
  split at h
  · simp only [Option.some.injEq, Prod.mk.injEq] at h
    exact absurd h.1.symm hne
  split at h
  · simp only [Option.some.injEq, Prod.mk.injEq] at h
    exact absurd h.1.symm hne
  · cases haug : V1.augMutate p lang q fs is fi ii with
    | none => rw [haug] at h; exact absurd h (by simp)
    | some v =>
      obtain ⟨m, fi6, ii6⟩ := v
      rw [haug] at h
      exact augFinish_shape h hne

unseal Rat.mul Rat.inv in
/-- Witness for C7's amended theorem at the concrete counterexample run
    (output differs from input; its first character `¿` is not alphabetic,
    so the capitalization clause holds vacuously). -/
theorem C7_augmented_shape_witness :
    ("¿cuanto es?".data).length > 3 ∧
    firstCharUpperIfAlpha "¿cuanto es?".data = true :=
  C7_augmented_shape true (1/2) "es" "¿cuánto es?".data "¿cuanto es?".data
    fsC7 (fun _ => 0) 0 0 7 0 (by decide) (by decide)

theorem pyChoice_isSome {α : Type} (xs : List α) (d : Nat) (h : xs ≠ []) :
    (pyChoice xs d).isSome := by
  unfold pyChoice
  have hlen : 0 < xs.length := List.length_pos.mpr h
  have hlt : d % xs.length < xs.length := Nat.mod_lt _ hlen
  cases hg : xs.get? (d % xs.length) with
  | none => exact absurd (List.get?_eq_none.mp hg) (by omega)
  | some a => rfl

theorem pySet_isSome {α : Type} (xs : List α) (i : Nat) (v : α)
    (h : i < xs.length) : (pySet xs i v).isSome := by
  unfold pySet
  rw [if_pos h]
  rfl

theorem pyGet_isSome {α : Type} (xs : List α) (i : Nat) (h : i < xs.length) :
    (pyGet xs i).isSome := by
  unfold pyGet
  cases hg : xs.get? i with
  | none => exact absurd (List.get?_eq_none.mp hg) (by omega)
  | some a => rfl

theorem pyChoice_ne_none {α : Type} (xs : List α) (d : Nat) (h : xs ≠ []) :
    pyChoice xs d ≠ none := by
  have hs := pyChoice_isSome xs d h
  intro he
  rw [he] at hs
  simp at hs

theorem pySet_ne_none {α : Type} (xs : List α) (i : Nat) (v : α)
    (h : i < xs.length) : pySet xs i v ≠ none := by
  unfold pySet
  rw [if_pos h]
  simp

theorem pyGet_ne_none {α : Type} (xs : List α) (i : Nat) (h : i < xs.length) :
    pyGet xs i ≠ none := by
  have hs := pyGet_isSome xs i h
  intro he
  rw [he] at hs
  simp at hs

theorem pyPop_ne_none {α : Type} (xs : List α) (i : Nat) (h : i < xs.length) :
    pyPop xs i ≠ none := by
  unfold pyPop
  rw [if_pos h]
  simp

theorem pySet_length {α : Type} {xs ys : List α} {i : Nat} {v : α}
    (h : pySet xs i v = some ys) : ys.length = xs.length := by
  unfold pySet at h
  split at h
  · cases h; simp
  · cases h

theorem pyRandint_lt (hi d : Nat) : pyRandint hi d < hi + 1 :=
  Nat.mod_lt _ (by omega)

theorem augTypoApply_isSome (q : List Char) (is : Nat → Nat) (ii : Nat) :
    (V1.augTypoApply q is ii).isSome := by
  unfold V1.augTypoApply
  by_cases hlen : q.length > 3
  case neg => rw [if_neg hlen]; rfl
  case pos =>
    rw [if_pos hlen]
    have hq : 0 < q.length := by omega
    have hr1 : pyRandint (q.length - 1) (is (ii + 1)) < q.length := by
      have := pyRandint_lt (q.length - 1) (is (ii + 1))
      omega
    have hr2 : pyRandint (q.length - 2) (is (ii + 1)) < q.length - 1 := by
      have := pyRandint_lt (q.length - 2) (is (ii + 1))
      omega
    cases hc : pyChoice ["replace", "swap", "omit", "double"] (is ii) with
    | none => exact absurd hc (pyChoice_ne_none _ _ (by decide))
    | some errorType =>
      simp only []
      by_cases h1 : errorType = "replace" ∧ q.length > 0
      · rw [if_pos h1]
        cases ha : pyChoice V1.typoAlphabet (is (ii + 2)) with
        | none => exact absurd ha (pyChoice_ne_none _ _ (by decide))
        | some c =>
          simp only []
          cases hs : pySet q (pyRandint (q.length - 1) (is (ii + 1))) c with
          | none => exact absurd hs (pySet_ne_none _ _ _ hr1)
          | some q' => rfl
      · rw [if_neg h1]
        by_cases h2 : errorType = "swap" ∧ q.length > 2
        · rw [if_pos h2]
          cases hga : pyGet q (pyRandint (q.length - 2) (is (ii + 1))) with
          | none => exact absurd hga (pyGet_ne_none _ _ (by omega))
          | some a =>
            simp only []
            cases hgb : pyGet q (pyRandint (q.length - 2) (is (ii + 1)) + 1) with
            | none => exact absurd hgb (pyGet_ne_none _ _ (by omega))
            | some b =>
              simp only []
              cases hs1 : pySet q (pyRandint (q.length - 2) (is (ii + 1))) b with
              | none => exact absurd hs1 (pySet_ne_none _ _ _ (by omega))
              | some q1 =>
                simp only []
                have hl1 := pySet_length hs1
                cases hs2 : pySet q1
                    (pyRandint (q.length - 2) (is (ii + 1)) + 1) a with
                | none => exact absurd hs2 (pySet_ne_none _ _ _ (by omega))
                | some q2 => rfl
        · rw [if_neg h2]
          by_cases h3 : errorType = "omit" ∧ q.length > 3
          · rw [if_pos h3]
            cases hp : pyPop q (pyRandint (q.length - 1) (is (ii + 1))) with
            | none => exact absurd hp (pyPop_ne_none _ _ hr1)
            | some q' => rfl
          · rw [if_neg h3]
            by_cases h4 : errorType = "double" ∧ q.length > 1
            · rw [if_pos h4]
              cases hg : pyGet q (pyRandint (q.length - 1) (is (ii + 1))) with
              | none => exact absurd hg (pyGet_ne_none _ _ hr1)
              | some c => rfl
            · rw [if_neg h4]
              rfl

theorem geLocalisms_ne_nil {lang : String}
    (h : V1.langHasLocalisms lang = true) : tplOf GE_LOCALISMS lang ≠ [] := by
  by_cases h1 : lang = "es"
  · subst h1; decide
  by_cases h2 : lang = "fr"
  · subst h2; decide
  by_cases h3 : lang = "en"
  · subst h3; decide
  exfalso
  unfold V1.langHasLocalisms at h
  unfold GE_LOCALISMS at h
  have e1 : (lang == "es") = false := by simp [h1]
  have e2 : (lang == "fr") = false := by simp [h2]
  have e3 : (lang == "en") = false := by simp [h3]
  simp [List.lookup, e1, e2, e3] at h

theorem augLocalismApply_isSome (lang : String) (q : List Char)
    (is : Nat → Nat) (ii : Nat) (h : V1.langHasLocalisms lang = true) :
    (V1.augLocalismApply lang q is ii).isSome := by
  unfold V1.augLocalismApply
  by_cases hw : (pySplitWs q).length > 2
  · rw [if_pos hw]
    have hr : pyRandint ((pySplitWs q).length - 1) (is ii) <
        (pySplitWs q).length := by
      have := pyRandint_lt ((pySplitWs q).length - 1) (is ii)
      omega
    cases hc : pyChoice (tplOf GE_LOCALISMS lang) (is (ii + 1)) with
    | none => exact absurd hc (pyChoice_ne_none _ _ (geLocalisms_ne_nil h))
    | some w =>
      simp only []
      cases hs : pySet (pySplitWs q) (pyRandint ((pySplitWs q).length - 1)
          (is ii)) w.data with
      | none => exact absurd hs (pySet_ne_none _ _ _ hr)
      | some words' => rfl
  · rw [if_neg hw]
    rfl


theorem augMutateTail_isSome (p : ℚ) (lang : String) (q2 : List Char)
    (fs : Nat → ℚ) (is : Nat → Nat) (fi ii2 : Nat) :
    (V1.augMutateTail p lang q2 fs is fi ii2).isSome := by
  unfold V1.augMutateTail
  lift_lets
  extract_lets q3 q4
  cases hp : (if fs (fi + 5) < p / 2 then V1.augShortenApply q4 fs (fi + 6)
      else (q4, fi + 6)) with
  | mk q5 fi5 =>
    simp only []
    by_cases hl : fs fi5 < p / 3 ∧ V1.langHasLocalisms lang = true
    · rw [if_pos hl]
      cases hloc : V1.augLocalismApply lang q5 is ii2 with
      | none =>
        have hls := augLocalismApply_isSome lang q5 is ii2 hl.2
        rw [hloc] at hls
        simp at hls
      | some w =>
        obtain ⟨q6, ii6⟩ := w
        simp
    · rw [if_neg hl]
      simp

theorem augMutate_isSome (p : ℚ) (lang : String) (q : List Char)
    (fs : Nat → ℚ) (is : Nat → Nat) (fi ii : Nat) :
    (V1.augMutate p lang q fs is fi ii).isSome := by
  unfold V1.augMutate
  lift_lets
  extract_lets q1
  cases ht : (if fs (fi + 2) < p then V1.augTypoApply q1 is ii
      else some (q1, ii)) with
  | none =>
    exfalso
    by_cases hg : fs (fi + 2) < p
    · rw [if_pos hg] at ht
      have hts := augTypoApply_isSome q1 is ii
      rw [ht] at hts
      simp at hts
    · rw [if_neg hg] at ht
      simp at ht
  | some v =>
    obtain ⟨q2, ii2⟩ := v
    simp only []
    exact augMutateTail_isSome p lang q2 fs is fi ii2

theorem augFinish_isSome (o m : List Char) (fi ii : Nat) :
    (V1.augFinish o m fi ii).isSome := by
  unfold V1.augFinish
  split <;> simp

/-- C10: `augment_question` is total — for every enabled flag, probability,
    language code (supported or not), input string, and state of the random
    source, it returns a string without raising: every indexing operation is
    reached only under the length/containment guards that make it safe. -/
theorem C10_augment_total (enabled : Bool) (p : ℚ) (lang : String)
    (q : List Char) (fs : Nat → ℚ) (is : Nat → Nat) (fi ii : Nat) :
    (V1.augmentQuestion enabled p lang q fs is fi ii).isSome := by
  unfold V1.augmentQuestion
  split
  · rfl
  split
  · rfl
  cases hm : V1.augMutate p lang q fs is fi ii with
  | none =>
    have hms := augMutate_isSome p lang q fs is fi ii
    rw [hm] at hms
    simp at hms
  | some v =>
    obtain ⟨m, fi6, ii6⟩ := v
    simp only []
    exact augFinish_isSome q m fi6 ii6

/-- C9: with `num_examples_per_concept = 0` and a constant-zero draw stream
    (both keyword draws pick `"aaaa"`, the first of the two keywords), the
    keyword-example ids are built from `keywords.index(keyword)`, which
    always returns the first occurrence — the run emits, per language, two
    examples sharing one id, so emitted ids are not pairwise distinct. -/
theorem C9_duplicate_keyword_ids :
    ((V2.processConcepto cexConceptDupKw "Min" 0 (fun _ => 0) 0 initStats).map
      (fun r => r.1.map (fun e => e.id))) =
      some ["c1_es_kw_0", "c1_es_kw_0", "c1_fr_kw_0", "c1_fr_kw_0",
            "c1_en_kw_0", "c1_en_kw_0"] ∧
    ¬ (["c1_es_kw_0", "c1_es_kw_0", "c1_fr_kw_0", "c1_fr_kw_0",
        "c1_en_kw_0", "c1_en_kw_0"] : List String).Nodup :=
  ⟨by decide, by decide⟩

theorem conceptExamplesLoop_language {lang cid nom min te tr : String}
    {docs proc : JVal} {i n : Nat} {is : Nat → Nat} {ii : Nat}
    {stats : Stats} {exs : List Example} {stats' : Stats} {ii' : Nat}
    (h : V2.conceptExamplesLoop lang cid nom min te tr docs proc i n is ii
      stats = some (exs, stats', ii')) :
    ∀ ex ∈ exs, ex.language = lang := by
  induction n generalizing i ii stats exs stats' ii' with
  | zero =>
    unfold V2.conceptExamplesLoop at h
    cases h
    intro ex hex
    cases hex
  | succ n ihn =>
    unfold V2.conceptExamplesLoop at h
    cases htpl : pyChoice (tplOf QUESTION_TEMPLATES lang) (is ii) with
    | none => rw [htpl] at h; cases h
    | some tpl =>
      rw [htpl] at h
      simp only [] at h
      cases hresp : V2.buildConceptResponse (V2.classifyQuestionTemplate tpl)
          lang nom min te tr docs proc is (ii + 1) with
      | none => rw [hresp] at h; cases h
      | some rp =>
        obtain ⟨response, ii2⟩ := rp
        rw [hresp] at h
        simp only [] at h
        cases hrest : V2.conceptExamplesLoop lang cid nom min te tr docs proc
            (i + 1) n is ii2 (addOriginal lang stats) with
        | none => rw [hrest] at h; cases h
        | some w =>
          obtain ⟨rest, stats2, ii3⟩ := w
          rw [hrest] at h
          cases h
          intro ex hex
          cases hex with
          | head => rfl
          | tail _ hmem => exact ihn hrest ex hmem

theorem keywordExamplesLoop_language {lang cid nom min : String}
    {keywords : List String} {n : Nat} {is : Nat → Nat} {ii : Nat}
    {stats : Stats} {exs : List Example} {stats' : Stats} {ii' : Nat}
    (h : V2.keywordExamplesLoop lang cid nom min keywords n is ii stats =
      some (exs, stats', ii')) :
    ∀ ex ∈ exs, ex.language = lang := by
  induction n generalizing ii stats exs stats' ii' with
  | zero =>
    unfold V2.keywordExamplesLoop at h
    cases h
    intro ex hex
    cases hex
  | succ n ihn =>
    unfold V2.keywordExamplesLoop at h
    cases hkw : pyChoice keywords (is ii) with
    | none => rw [hkw] at h; cases h
    | some kw =>
      rw [hkw] at h
      simp only [] at h
      by_cases hstrip : pyStrip kw = ""
      · rw [if_pos hstrip] at h
        exact ihn h
      · rw [if_neg hstrip] at h
        cases htpl : pyChoice (tplOf KEYWORD_QUESTION_TEMPLATES lang)
            (is (ii + 1)) with
        | none => rw [htpl] at h; cases h
        | some tpl =>
          rw [htpl] at h
          simp only [] at h
          cases hrest : V2.keywordExamplesLoop lang cid nom min keywords n is
              (ii + 2) (addOriginal lang stats) with
          | none => rw [hrest] at h; cases h
          | some w =>
            obtain ⟨rest, stats2, ii3⟩ := w
            rw [hrest] at h
            cases h
            intro ex hex
            cases hex with
            | head => rfl
            | tail _ hmem => exact ihn hrest ex hmem

theorem processConceptoLang_language {cfields nombres docsDict procDict pkDict :
    List (String × JVal)} {cid : JVal} {mnm : String} {n : Nat}
    {lang : String} {is : Nat → Nat} {ii : Nat} {stats : Stats}
    {exs : List Example} {stats' : Stats} {ii' : Nat}
    (h : V2.processConceptoLang cfields nombres docsDict procDict pkDict cid
      mnm n lang is ii stats = some (exs, stats', ii')) :
    ∀ ex ∈ exs, ex.language = lang := by
  unfold V2.processConceptoLang at h
  simp only [] at h
  by_cases hnf : jFalsy (resolveLocalized nombres lang cid) = true
  · rw [if_pos hnf] at h
    cases h
    intro ex hex
    cases hex
  · rw [if_neg hnf] at h
    cases hloop : V2.conceptExamplesLoop lang (pyStrOf cid)
        (pyStrOf (resolveLocalized nombres lang cid)) mnm
        (pyStrOf ((cfields.lookup "tasa_expedicion").getD (JVal.str "N/A")))
        (pyStrOf ((cfields.lookup "tasa_renovacion").getD (JVal.str "N/A")))
        (resolveLocalized docsDict lang (JVal.str ""))
        (resolveLocalized procDict lang (JVal.str "")) 0 n is ii stats with
    | none => rw [hloop] at h; cases h
    | some w1 =>
      obtain ⟨exs1, stats1, ii1⟩ := w1
      rw [hloop] at h
      simp only [] at h
      cases hkws : V2.keywordsFor pkDict lang with
      | none => rw [hkws] at h; cases h
      | some keywords =>
        rw [hkws] at h
        simp only [] at h
        by_cases hke : keywords.isEmpty = true
        · rw [if_pos hke] at h
          cases h
          exact conceptExamplesLoop_language hloop
        · rw [if_neg hke] at h
          cases hkwloop : V2.keywordExamplesLoop lang (pyStrOf cid)
              (pyStrOf (resolveLocalized nombres lang cid)) mnm keywords
              (min 2 keywords.length) is ii1 stats1 with
          | none => rw [hkwloop] at h; cases h
          | some w2 =>
            obtain ⟨kws, stats2, ii2⟩ := w2
            rw [hkwloop] at h
            cases h
            intro ex hex
            rcases List.mem_append.mp hex with hm | hm
            · exact conceptExamplesLoop_language hloop ex hm
            · exact keywordExamplesLoop_language hkwloop ex hm

theorem processConceptoLang_falsy {cfields nombres docsDict procDict pkDict :
    List (String × JVal)} {cid : JVal} {mnm : String} {n : Nat}
    {lang : String} {is : Nat → Nat} {ii : Nat} {stats : Stats}
    (hname : jFalsy (resolveLocalized nombres lang cid) = true) :
    V2.processConceptoLang cfields nombres docsDict procDict pkDict cid mnm n
      lang is ii stats = some ([], stats, ii) := by
  unfold V2.processConceptoLang
  simp only []
  rw [if_pos hname]


theorem processConceptoLangs_skip {cfields nombres docsDict procDict pkDict :
    List (String × JVal)} {cid : JVal} {mnm : String} {n : Nat}
    {lang : String} {langs : List String} {is : Nat → Nat} {ii : Nat}
    {stats : Stats} {exs : List Example} {stats' : Stats} {ii' : Nat}
    (hname : jFalsy (resolveLocalized nombres lang cid) = true)
    (h : V2.processConceptoLangs cfields nombres docsDict procDict pkDict cid
      mnm n langs is ii stats = some (exs, stats', ii')) :
    ∀ ex ∈ exs, ex.language ≠ lang := by
  induction langs generalizing ii stats exs stats' ii' with
  | nil =>
    unfold V2.processConceptoLangs at h
    cases h
    intro ex hex
    cases hex
  | cons lang1 rest ih =>
    unfold V2.processConceptoLangs at h
    cases hL : V2.processConceptoLang cfields nombres docsDict procDict pkDict
        cid mnm n lang1 is ii stats with
    | none => rw [hL] at h; cases h
    | some w1 =>
      obtain ⟨exs1, stats1, ii1⟩ := w1
      rw [hL] at h
      simp only [] at h
      cases hR : V2.processConceptoLangs cfields nombres docsDict procDict
          pkDict cid mnm n rest is ii1 stats1 with
      | none => rw [hR] at h; cases h
      | some w2 =>
        obtain ⟨more, stats2, ii2⟩ := w2
        rw [hR] at h
        cases h
        intro ex hex
        rcases List.mem_append.mp hex with hm | hm
        · by_cases he : lang1 = lang
          · subst he
            rw [processConceptoLang_falsy hname] at hL
            cases hL
            cases hm
          · rw [processConceptoLang_language hL ex hm]
            exact he
        · exact ih hR ex hm

/-- C2 (amended): the name resolution for language L falls back from
    `nombre[L]` to `nombre["es"]` to the concept id; a concept produces zero
    L-language examples exactly when that full chain resolves to an
    empty/falsy value (in particular when the mapping omits L and `"es"` and
    the id is also empty) — no example is emitted in a language whose
    resolved name is falsy. -/
theorem C2_skip_on_empty_name (cfields : List (String × JVal))
    (ministerioNombre : String) (numExamples : Nat) (is : Nat → Nat)
    (ii : Nat) (stats : Stats) (lang : String) (exs : List Example)
    (stats' : Stats) (ii' : Nat)
    (hname : jFalsy (resolveLocalized (localizedDict cfields "nombre"
      (JVal.str "")) lang ((cfields.lookup "id").getD (JVal.str ""))) = true)
    (h : V2.processConcepto (JVal.obj cfields) ministerioNombre numExamples is
      ii stats = some (exs, stats', ii')) :
    ∀ ex ∈ exs, ex.language ≠ lang := by
  unfold V2.processConcepto at h
  simp only [] at h
  exact processConceptoLangs_skip hname h

/-- Witness for C2's amended theorem: a concept whose name mapping is empty
    and whose id is empty resolves falsy in every language and emits
    nothing. -/
theorem C2_skip_on_empty_name_witness :
    V2.processConcepto (JVal.obj [("id", JVal.str ""), ("nombre", JVal.obj [])])
        "Min" 1 (fun _ => 0) 0 initStats = some ([], initStats, 0) ∧
    ([] : List Example).all (fun e => !(e.language == "en")) = true := by
  refine ⟨by decide, ?_⟩
  have h := C2_skip_on_empty_name [("id", JVal.str ""), ("nombre", JVal.obj [])]
    "Min" 1 (fun _ => 0) 0 initStats "en" [] initStats 0 (by decide) (by decide)
  rw [List.all_eq_true]
  intro e he
  simpa using h e he

/-- C2 counterexample: a concept whose `nombre` mapping omits both `"en"`
    and `"es"` but whose id `"c1"` is non-empty still produces an `"en"`
    example (the resolution chain falls back to the concept id), so the
    claim that such a concept emits zero `"en"` examples is false as
    stated. -/
theorem C2_counterexample :
    ((localizedDict [("id", JVal.str "c1"),
      ("nombre", JVal.obj [("fr", JVal.str "X")])] "nombre"
      (JVal.str "")).lookup "en").isNone = true ∧
    ((localizedDict [("id", JVal.str "c1"),
      ("nombre", JVal.obj [("fr", JVal.str "X")])] "nombre"
      (JVal.str "")).lookup "es").isNone = true ∧
    ((V2.processConcepto cexConceptNoEs "Min" 1 (fun _ => 0) 0 initStats).map
      (fun r => r.1.countP (fun e => e.language = "en"))) = some 1 :=
  ⟨by decide, by decide, by decide⟩

theorem greetingLoop_isSome {lang : String}
    (hne : tplOf GREETING_RESPONSES lang ≠ []) (greetings : List String)
    (i : Nat) (is : Nat → Nat) (ii : Nat) (stats : Stats) :
    (V2.greetingLoop lang greetings i is ii stats).isSome := by
  induction greetings generalizing i ii stats with
  | nil => rfl
  | cons g rest ih =>
    unfold V2.greetingLoop
    cases hc : pyChoice (tplOf GREETING_RESPONSES lang) (is ii) with
    | none => exact absurd hc (pyChoice_ne_none _ _ hne)
    | some resp =>
      simp only []
      cases hrec : V2.greetingLoop lang rest (i + 1) is (ii + 1)
          (addOriginal lang stats) with
      | none =>
        have hs := ih (i + 1) (ii + 1) (addOriginal lang stats)
        rw [hrec] at hs
        simp at hs
      | some w =>
        obtain ⟨a, b, c⟩ := w
        simp

theorem thanksLoop_isSome {lang : String}
    (hne : tplOf THANKS_RESPONSES lang ≠ []) (thanks : List String)
    (i : Nat) (is : Nat → Nat) (ii : Nat) (stats : Stats) :
    (V2.thanksLoop lang thanks i is ii stats).isSome := by
  induction thanks generalizing i ii stats with
  | nil => rfl
  | cons t rest ih =>
    unfold V2.thanksLoop
    cases hc : pyChoice (tplOf THANKS_RESPONSES lang) (is ii) with
    | none => exact absurd hc (pyChoice_ne_none _ _ hne)
    | some resp =>
      simp only []
      cases hrec : V2.thanksLoop lang rest (i + 1) is (ii + 1)
          (addOriginal lang stats) with
      | none =>
        have hs := ih (i + 1) (ii + 1) (addOriginal lang stats)
        rw [hrec] at hs
        simp at hs
      | some w =>
        obtain ⟨a, b, c⟩ := w
        simp

theorem generateGreetingLangs_isSome (langs : List String) (is : Nat → Nat)
    (ii : Nat) (stats : Stats)
    (hok : ∀ lang ∈ langs, tplOf GREETING_RESPONSES lang ≠ [] ∧
      tplOf THANKS_RESPONSES lang ≠ []) :
    (V2.generateGreetingLangs langs is ii stats).isSome := by
  induction langs generalizing ii stats with
  | nil => rfl
  | cons lang rest ih =>
    unfold V2.generateGreetingLangs
    cases hg : V2.greetingLoop lang (tplOf GREETING_TEMPLATES lang) 0 is ii
        stats with
    | none =>
      have hs := greetingLoop_isSome (hok lang (by simp)).1
        (tplOf GREETING_TEMPLATES lang) 0 is ii stats
      rw [hg] at hs
      simp at hs
    | some w1 =>
      obtain ⟨gs, stats1, ii1⟩ := w1
      simp only []
      cases ht : V2.thanksLoop lang (tplOf THANKS_TEMPLATES lang) 0 is ii1
          stats1 with
      | none =>
        have hs := thanksLoop_isSome (hok lang (by simp)).2
          (tplOf THANKS_TEMPLATES lang) 0 is ii1 stats1
        rw [ht] at hs
        simp at hs
      | some w2 =>
        obtain ⟨ts, stats2, ii2⟩ := w2
        simp only []
        cases hrec : V2.generateGreetingLangs rest is ii2 stats2 with
        | none =>
          have hs := ih ii2 stats2 (fun l hl => hok l (by simp [hl]))
          rw [hrec] at hs
          simp at hs
        | some w3 =>
          obtain ⟨more, stats3, ii3⟩ := w3
          simp

/-- C3 (amended): `generate_corpus` accepts only the bare-list container
    shape.  A top-level JSON object (such as `{"ministries": [...]}`) makes
    the loop iterate over the object's keys (strings) and raise on
    `.get`, and a hierarchy element that is not a mapping raises likewise —
    neither is skipped silently; a bare list of ministry mappings is
    processed without error. -/
theorem C3_bare_list_only :
    (∀ (k : String) (v : JVal) (fields : List (String × JVal))
      (numExamples : Nat) (is : Nat → Nat),
      V2.generateCorpus (some (JVal.obj ((k, v) :: fields))) numExamples is =
        none) ∧
    (∀ (x : JVal) (xs : List JVal) (numExamples : Nat) (is : Nat → Nat),
      (∀ f, x ≠ JVal.obj f) →
      V2.generateCorpus (some (JVal.arr (x :: xs))) numExamples is = none) ∧
    (∀ (numExamples : Nat) (is : Nat → Nat),
      (V2.generateCorpus (some (JVal.arr [JVal.obj [("id", JVal.str "m1")]]))
        numExamples is).isSome) := by
  refine ⟨fun k v fields numExamples is => rfl, ?_, ?_⟩
  · intro x xs numExamples is hx
    cases x with
    | obj f => exact absurd rfl (hx f)
    | str s => rfl
    | num n => rfl
    | arr l => rfl
  · intro numExamples is
    have h1 : V2.generateCorpus
        (some (JVal.arr [JVal.obj [("id", JVal.str "m1")]])) numExamples is =
        (match V2.generateGreetingLangs supportedLangs is 0 initStats with
         | none => none
         | some (g, stats', _) =>
            some (true, ([] : List Example) ++ g, stats')) := rfl
    rw [h1]
    cases hge : V2.generateGreetingLangs supportedLangs is 0 initStats with
    | none =>
      have hs := generateGreetingLangs_isSome supportedLangs is 0 initStats
        (by decide)
      rw [hge] at hs
      simp at hs
    | some w =>
      obtain ⟨g, stats', ii'⟩ := w
      simp

/-- Witness for C3's amended theorem at concrete inputs: the object shape
    and a non-mapping first element both end in an uncaught error, and the
    minimal bare-list input succeeds. -/
theorem C3_bare_list_only_witness :
    V2.generateCorpus (some (JVal.obj [("ministries",
      JVal.arr [JVal.obj [("id", JVal.str "m1")]])])) 1 (fun _ => 0) = none ∧
    V2.generateCorpus (some (JVal.arr [JVal.str "oops"])) 1 (fun _ => 0) =
      none ∧
    (V2.generateCorpus (some (JVal.arr [JVal.obj [("id", JVal.str "m1")]])) 1
      (fun _ => 0)).isSome :=
  ⟨C3_bare_list_only.1 "ministries" (JVal.arr [JVal.obj [("id", JVal.str "m1")]])
     [] 1 (fun _ => 0),
   C3_bare_list_only.2.1 (JVal.str "oops") [] 1 (fun _ => 0)
     (fun f h => by cases h),
   C3_bare_list_only.2.2 1 (fun _ => 0)⟩

/-- C3 counterexample: the claim that `generate_corpus` accepts an object
    with a `"ministries"` key and silently skips non-mapping nodes is false
    — both inputs produce an uncaught error (`none`), not a successful
    run. -/
theorem C3_counterexample :
    V2.generateCorpus (some (JVal.obj [("ministries",
      JVal.arr [JVal.obj [("id", JVal.str "m1")]])])) 1 (fun _ => 0) = none ∧
    V2.generateCorpus (some (JVal.arr [JVal.str "not-a-mapping",
      JVal.obj [("id", JVal.str "m1")]])) 1 (fun _ => 0) = none :=
  ⟨by decide, by decide⟩

/-- C4 counterexample: an input file that exists and parses as valid JSON
    (`[]`, the empty list) still makes the run fail — `generate_corpus`
    returns `False` on any falsy document and `save_corpus` refuses the
    empty corpus — so "returns success unless the input file is missing or
    unparsable" is false as stated. -/
theorem C4_counterexample :
    V2.generateCorpus (some (JVal.arr [])) 1 (fun _ => 0) =
      some (false, [], initStats) ∧
    V2.saveCorpus [] true = (false, none) :=
  ⟨by decide, by decide⟩

/-- C4 (amended): a run returns success unless the input file is missing,
    unparsable as JSON, or parses to an empty/falsy document; in those
    failure cases the run aborts with no examples and `save_corpus` writes
    nothing (it refuses an empty corpus); conversely a successful run
    implies the input was present, parsed, and non-falsy. -/
theorem C4_failure_conditions :
    (∀ (numExamples : Nat) (is : Nat → Nat),
      V2.generateCorpus none numExamples is = some (false, [], initStats)) ∧
    (∀ (v : JVal) (numExamples : Nat) (is : Nat → Nat), jFalsy v = true →
      V2.generateCorpus (some v) numExamples is =
        some (false, [], initStats)) ∧
    (∀ ioOk, V2.saveCorpus [] ioOk = (false, none)) ∧
    (∀ (loaded : Option JVal) (numExamples : Nat) (is : Nat → Nat)
      (corpus : List Example) (stats : Stats),
      V2.generateCorpus loaded numExamples is = some (true, corpus, stats) →
      ∃ v, loaded = some v ∧ jFalsy v = false) := by
  refine ⟨fun numExamples is => rfl, ?_, fun ioOk => rfl, ?_⟩
  · intro v numExamples is hv
    unfold V2.generateCorpus
    rw [show V2.loadData (some v) = v from rfl, if_pos hv]
  · intro loaded numExamples is corpus stats h
    cases loaded with
    | none => cases h
    | some v =>
      refine ⟨v, rfl, ?_⟩
      by_contra hv
      rw [Bool.not_eq_false] at hv
      unfold V2.generateCorpus at h
      rw [show V2.loadData (some v) = v from rfl, if_pos hv] at h
      cases h

/-- Witness for C4's amended theorem at concrete inputs. -/
theorem C4_failure_conditions_witness :
    V2.generateCorpus (some (JVal.arr [])) 2 (fun _ => 0) =
      some (false, [], initStats) ∧
    V2.saveCorpus [] false = (false, none) ∧
    (∃ v, (some (JVal.arr [JVal.obj [("id", JVal.str "m1")]]) :
      Option JVal) = some v ∧ jFalsy v = false) := by
  refine ⟨C4_failure_conditions.2.1 (JVal.arr []) 2 (fun _ => 0) (by decide),
    C4_failure_conditions.2.2.1 false, ?_⟩
  exact C4_failure_conditions.2.2.2
    (some (JVal.arr [JVal.obj [("id", JVal.str "m1")]])) 1 (fun _ => 0) _ _ rfl

theorem conceptNamesAux_nodup (dicts : List (List (String × JVal)))
    (lang : String) (acc : List String) (hacc : acc.Nodup) :
    (V2.conceptNamesAux dicts lang acc).Nodup := by
  induction dicts generalizing acc with
  | nil => exact hacc
  | cons d rest ih =>
    unfold V2.conceptNamesAux
    simp only []
    split
    next hcond =>
      refine ih _ ?_
      have hparts := (Bool.and_eq_true _ _).mp hcond
      have hmem : pyStrOf (resolveLocalized d lang (JVal.str "")) ∉ acc := by
        have h2 := hparts.2
        rw [decide_eq_true_iff] at h2
        intro hin
        exact h2 ((List.elem_iff).mpr hin)
      rw [List.nodup_append]
      refine ⟨hacc, List.nodup_singleton _, ?_⟩
      intro a ha hb
      simp only [List.mem_singleton] at hb
      subst hb
      exact hmem ha
    next => exact ih _ hacc

theorem conceptNamesFor_nodup (dicts : List (List (String × JVal)))
    (lang : String) : (V2.conceptNamesFor dicts lang).Nodup :=
  conceptNamesAux_nodup dicts lang [] List.nodup_nil

theorem pySample_length {α : Type} (xs : List α) (k : Nat) (is : Nat → Nat)
    (ii : Nat) (hk : k ≤ xs.length) : (pySample xs k is ii).length = k := by
  induction k generalizing xs ii with
  | zero => unfold pySample; cases xs <;> rfl
  | succ k ihk =>
    cases xs with
    | nil => simp at hk
    | cons x rest =>
      unfold pySample
      simp only [List.length_cons]
      have hlt : is ii % (rest.length + 1) < (x :: rest).length := by
        have := Nat.mod_lt (is ii) (show 0 < rest.length + 1 by omega)
        simpa using this
      cases hg : (x :: rest).get? (is ii % (rest.length + 1)) with
      | none =>
        exact absurd (List.get?_eq_none.mp hg) (by simp at hlt ⊢; omega)
      | some chosen =>
        try simp only []
        have herase := List.length_eraseIdx_add_one hlt
        rw [List.length_cons, ihk _ (ii + 1) (by simp at herase hk ⊢; omega)]

theorem pySample_subset {α : Type} (xs : List α) (k : Nat) (is : Nat → Nat)
    (ii : Nat) : ∀ y ∈ pySample xs k is ii, y ∈ xs := by
  induction k generalizing xs ii with
  | zero =>
    intro y hy
    unfold pySample at hy
    cases xs <;> cases hy
  | succ k ihk =>
    intro y hy
    cases xs with
    | nil => cases hy
    | cons x rest =>
      unfold pySample at hy
      try simp only [] at hy
      cases hg : (x :: rest).get? (is ii % (x :: rest).length) with
      | none => rw [hg] at hy; cases hy
      | some chosen =>
        rw [hg] at hy
        cases hy with
        | head => exact List.get?_mem hg
        | tail _ hmem =>
          exact List.eraseIdx_subset _ _ (ihk _ (ii + 1) y hmem)

theorem pySample_nodup {α : Type} [DecidableEq α] (xs : List α) (k : Nat)
    (is : Nat → Nat) (ii : Nat) (hnd : xs.Nodup) :
    (pySample xs k is ii).Nodup := by
  induction k generalizing xs ii with
  | zero => unfold pySample; cases xs <;> simp
  | succ k ihk =>
    cases xs with
    | nil => unfold pySample; simp
    | cons x rest =>
      unfold pySample
      simp only [List.length_cons]
      have hlt : is ii % (rest.length + 1) < (x :: rest).length := by
        have := Nat.mod_lt (is ii) (show 0 < rest.length + 1 by omega)
        simpa using this
      cases hg : (x :: rest).get? (is ii % (rest.length + 1)) with
      | none => simp
      | some chosen =>
        try simp only []
        have hperm := List.erase_getElem (l := x :: rest)
          (i := is ii % (rest.length + 1)) hlt
        have hgetelem : (x :: rest)[is ii % (rest.length + 1)] = chosen := by
          have hq := List.get?_eq_getElem? (x :: rest) (is ii % (rest.length + 1))
          rw [hq, List.getElem?_eq_getElem hlt] at hg
          exact Option.some.inj hg
        rw [List.nodup_cons]
        constructor
        · intro hmemc
          have hmemc2 := pySample_subset _ _ _ _ chosen hmemc
          have hmemerase : chosen ∈ (x :: rest).erase chosen := by
            rw [hgetelem] at hperm
            exact hperm.symm.subset hmemc2
          rw [List.Nodup.mem_erase_iff hnd] at hmemerase
          exact hmemerase.1 rfl
        · refine ihk _ (ii + 1) ?_
          rw [hgetelem] at hperm
          exact hperm.nodup (hnd.erase chosen)

/-- C6: for every ministry record and every language in which at least one
    descendant concept name resolves, the per-language body of
    `_process_ministerio` draws its summary sample from the deduplicated
    first-appearance-ordered name list (`names.Nodup`), the sample has
    exactly `min 5 n` entries, is itself duplicate-free and drawn from the
    name list, the summary string joins the sample with commas and the
    language conjunction before the last item, and exactly two original
    examples are emitted, instantiated from the first two templates of the
    language's general-question template list. -/
theorem C6_ministerio_summary (mnombres : List (String × JVal))
    (ministerioIdV : JVal) (dicts : List (List (String × JVal)))
    (lang : String) (is : Nat → Nat) (ii : Nat) (stats : Stats)
    (names sample : List String) (idS nombreLangS : String)
    (hlang : lang ∈ supportedLangs)
    (hnames : names = V2.conceptNamesFor dicts lang)
    (hne : names ≠ [])
    (hsample : sample = pySample names (min 5 names.length) is ii)
    (hid : idS = pyStrOf ministerioIdV)
    (hnom : nombreLangS = pyStrOf (resolveLocalized mnombres lang ministerioIdV)) :
    names.Nodup ∧
    sample.length = min 5 names.length ∧
    sample.Nodup ∧
    (∀ y ∈ sample, y ∈ names) ∧
    formatList sample lang =
      joinCommaSpace sample.dropLast ++
        (if sample.length > 1 then
          (if lang = "es" then " y " else if lang = "fr" then " et "
           else " and ") ++ sample.getLastD ""
         else sample.headD "") ∧
    (∃ t0 t1, (tplOf GENERAL_QUESTION_TEMPLATES lang).take 2 = [t0, t1] ∧
      V2.processMinisterioLang mnombres ministerioIdV dicts lang is ii stats =
        ([{ id := idS ++ "_" ++ lang ++ "_general_" ++ toString (0 : Nat),
            language := lang,
            concept_id := idS,
            question := capitalizeFirstLetter (pyFormat t0 "ministerio" nombreLangS),
            answer := capitalizeFirstLetter (pyFormat (pyFormat
              (RESPONSE_TEMPLATES "ministerio_general" lang) "ministerio"
              nombreLangS) "conceptos" (formatList sample lang)),
            ministry := some nombreLangS, query_type := "ministerio_general",
            keyword := none, augmented := none },
          { id := idS ++ "_" ++ lang ++ "_general_" ++ toString (1 : Nat),
            language := lang, concept_id := idS,
            question := capitalizeFirstLetter (pyFormat t1 "ministerio" nombreLangS),
            answer := capitalizeFirstLetter (pyFormat (pyFormat
              (RESPONSE_TEMPLATES "ministerio_general" lang) "ministerio"
              nombreLangS) "conceptos" (formatList sample lang)),
            ministry := some nombreLangS, query_type := "ministerio_general",
            keyword := none, augmented := none }],
         addOriginal lang (addOriginal lang stats),
         ii + min 5 names.length)) := by
  subst hnames hsample hid hnom
  have h3 : lang = "es" ∨ lang = "fr" ∨ lang = "en" := by
    simpa [supportedLangs, QUESTION_TEMPLATES] using hlang
  have hempty : (V2.conceptNamesFor dicts lang).isEmpty = false := by
    cases hcn : V2.conceptNamesFor dicts lang with
    | nil => exact absurd hcn hne
    | cons a l => rfl
  refine ⟨conceptNamesFor_nodup dicts lang,
    pySample_length _ _ _ _ (Nat.min_le_right 5 _),
    pySample_nodup _ _ _ _ (conceptNamesFor_nodup dicts lang),
    pySample_subset _ _ _ _, ?_, ?_⟩
  · rcases h3 with h | h | h <;> subst h <;>
      cases pySample (V2.conceptNamesFor dicts _)
        (min 5 (V2.conceptNamesFor dicts _).length) is ii <;> rfl
  · rcases h3 with h | h | h <;> subst h <;>
      refine ⟨_, _, rfl, ?_⟩ <;>
      · simp only [V2.processMinisterioLang, hempty]
        rfl

/-- Witness for C6 at a concrete ministry: two concept-name dicts resolving
    to distinct Spanish names, the constant-zero draw stream, and language
    `"es"`; the run emits exactly two examples. -/
theorem C6_ministerio_summary_witness :
    ("es" ∈ supportedLangs) ∧
    (["Pasaporte", "Visa"] : List String) =
      V2.conceptNamesFor [[("es", JVal.str "Pasaporte")],
        [("es", JVal.str "Visa")]] "es" ∧
    (V2.processMinisterioLang [("es", JVal.str "Interior")] (JVal.str "m1")
        [[("es", JVal.str "Pasaporte")], [("es", JVal.str "Visa")]] "es"
        (fun _ => 0) 0 initStats).1.length = 2 := by
  refine ⟨by decide, by decide, ?_⟩
  obtain ⟨-, -, -, -, -, t0, t1, -, hres⟩ :=
    C6_ministerio_summary [("es", JVal.str "Interior")] (JVal.str "m1")
      [[("es", JVal.str "Pasaporte")], [("es", JVal.str "Visa")]] "es"
      (fun _ => 0) 0 initStats ["Pasaporte", "Visa"] ["Pasaporte", "Visa"]
      "m1" "Interior" (by decide) (by decide) (by decide) (by decide) rfl
      (by decide)
  rw [hres]
  rfl

theorem bumpLang_total (lang : String) (s : Stats) :
    (bumpLang lang s).total_examples = s.total_examples := by
  unfold bumpLang; split_ifs <;> rfl

theorem bumpLang_aug (lang : String) (s : Stats) :
    (bumpLang lang s).augmented_examples = s.augmented_examples := by
  unfold bumpLang; split_ifs <;> rfl

theorem bumpLang_concepts (lang : String) (s : Stats) :
    (bumpLang lang s).concepts = s.concepts := by
  unfold bumpLang; split_ifs <;> rfl

theorem bumpLang_sum (lang : String) (s : Stats) (hm : lang ∈ supportedLangs) :
    (bumpLang lang s).lang_es + (bumpLang lang s).lang_fr +
      (bumpLang lang s).lang_en =
    s.lang_es + s.lang_fr + s.lang_en + 1 := by
  have h3 : lang = "es" ∨ lang = "fr" ∨ lang = "en" := by
    simpa [supportedLangs, QUESTION_TEMPLATES] using hm
  unfold bumpLang
  rcases h3 with h | h | h <;> subst h <;> simp <;> omega

theorem addOriginal_total (lang : String) (s : Stats) :
    (addOriginal lang s).total_examples = s.total_examples + 1 := by
  show (bumpLang lang s).total_examples + 1 = s.total_examples + 1
  rw [bumpLang_total]

theorem addOriginal_aug (lang : String) (s : Stats) :
    (addOriginal lang s).augmented_examples = s.augmented_examples := by
  show (bumpLang lang s).augmented_examples = s.augmented_examples
  exact bumpLang_aug lang s

theorem addOriginal_concepts (lang : String) (s : Stats) :
    (addOriginal lang s).concepts = s.concepts := by
  show (bumpLang lang s).concepts = s.concepts
  exact bumpLang_concepts lang s

theorem addOriginal_sum (lang : String) (s : Stats)
    (hm : lang ∈ supportedLangs) :
    (addOriginal lang s).lang_es + (addOriginal lang s).lang_fr +
      (addOriginal lang s).lang_en =
    s.lang_es + s.lang_fr + s.lang_en + 1 := by
  show (bumpLang lang s).lang_es + (bumpLang lang s).lang_fr +
    (bumpLang lang s).lang_en = s.lang_es + s.lang_fr + s.lang_en + 1
  exact bumpLang_sum lang s hm

theorem addOriginal_inv (lang : String) (s : Stats)
    (hm : lang ∈ supportedLangs) (hs : StatsInv s) :
    StatsInv (addOriginal lang s) := by
  obtain ⟨h1, h2⟩ := hs
  refine ⟨?_, ?_⟩
  · rw [addOriginal_total, addOriginal_sum lang s hm, h1]
  · rw [addOriginal_total, addOriginal_aug]; omega

theorem addAugmented_total (lang : String) (s : Stats) :
    (addAugmented lang s).total_examples = s.total_examples + 1 := by
  show (bumpLang lang { s with augmented_examples := s.augmented_examples + 1
    }).total_examples + 1 = s.total_examples + 1
  rw [bumpLang_total]

theorem addAugmented_aug (lang : String) (s : Stats) :
    (addAugmented lang s).augmented_examples = s.augmented_examples + 1 := by
  show (bumpLang lang { s with augmented_examples := s.augmented_examples + 1
    }).augmented_examples = s.augmented_examples + 1
  rw [bumpLang_aug]

theorem addAugmented_concepts (lang : String) (s : Stats) :
    (addAugmented lang s).concepts = s.concepts := by
  show (bumpLang lang { s with augmented_examples := s.augmented_examples + 1
    }).concepts = s.concepts
  rw [bumpLang_concepts]

theorem addAugmented_sum (lang : String) (s : Stats)
    (hm : lang ∈ supportedLangs) :
    (addAugmented lang s).lang_es + (addAugmented lang s).lang_fr +
      (addAugmented lang s).lang_en =
    s.lang_es + s.lang_fr + s.lang_en + 1 := by
  show (bumpLang lang { s with augmented_examples := s.augmented_examples + 1
      }).lang_es + (bumpLang lang { s with augmented_examples :=
        s.augmented_examples + 1 }).lang_fr +
      (bumpLang lang { s with augmented_examples := s.augmented_examples + 1
      }).lang_en = s.lang_es + s.lang_fr + s.lang_en + 1
  exact bumpLang_sum lang _ hm

theorem addAugmented_inv (lang : String) (s : Stats)
    (hm : lang ∈ supportedLangs) (hs : StatsInv s) :
    StatsInv (addAugmented lang s) := by
  obtain ⟨h1, h2⟩ := hs
  refine ⟨?_, ?_⟩
  · rw [addAugmented_total, addAugmented_sum lang s hm, h1]
  · rw [addAugmented_total, addAugmented_aug]; omega

theorem emitAugmented_inv {cfg : V1.Config} {p : ℚ} {lang : String}
    {question : String} {mkEx : String → Example} {fs : Nat → ℚ}
    {is : Nat → Nat} {st : V1.GenSt} {exs : List Example} {st' : V1.GenSt}
    (hm : lang ∈ supportedLangs) (hs : StatsInv st.stats)
    (h : V1.emitAugmented cfg p lang question mkEx fs is st = some (exs, st')) :
    StatsInv st'.stats ∧ st'.stats.concepts = st.stats.concepts := by
  unfold V1.emitAugmented at h
  by_cases hen : cfg.augmentation_enabled = true
  · rw [if_pos hen] at h
    cases haq : V1.augmentQuestion cfg.augmentation_enabled p lang
        question.data fs is st.fi st.ii with
    | none => rw [haq] at h; cases h
    | some w =>
      obtain ⟨aqL, fi1, ii1⟩ := w
      rw [haq] at h
      simp only [] at h
      by_cases hne : (⟨aqL⟩ : String) ≠ question
      · rw [if_pos hne] at h
        cases h
        exact ⟨addAugmented_inv lang st.stats hm hs,
          addAugmented_concepts lang st.stats⟩
      · rw [if_neg hne] at h
        cases h
        exact ⟨hs, rfl⟩
  · rw [if_neg hen] at h
    cases h
    exact ⟨hs, rfl⟩

theorem conceptExamplesLoop_inv {cfg : V1.Config}
    {lang cid nom mnm te tr : String} {i n : Nat} {fs : Nat → ℚ}
    {is : Nat → Nat} {st : V1.GenSt} {exs : List Example} {st' : V1.GenSt}
    (hm : lang ∈ supportedLangs) (hs : StatsInv st.stats)
    (h : V1.conceptExamplesLoop cfg lang cid nom mnm te tr i n fs is st =
      some (exs, st')) :
    StatsInv st'.stats ∧ st'.stats.concepts = st.stats.concepts := by
  induction n generalizing i st exs st' with
  | zero =>
    unfold V1.conceptExamplesLoop at h
    cases h
    exact ⟨hs, rfl⟩
  | succ n ihn =>
    unfold V1.conceptExamplesLoop at h
    cases htpl : pyChoice (tplOf QUESTION_TEMPLATES lang) (is st.ii) with
    | none => rw [htpl] at h; cases h
    | some question_template =>
      rw [htpl] at h
      simp only [] at h
      split at h
      next => cases h
      next augExs st1 hea =>
        split at h
        next => cases h
        next rest st2 hrest =>
          cases h
          have h1 := emitAugmented_inv hm
            (addOriginal_inv lang st.stats hm hs) hea
          have h2 := ihn h1.1 hrest
          refine ⟨h2.1, ?_⟩
          rw [h2.2, h1.2]
          exact addOriginal_concepts lang st.stats

theorem keywordExamplesLoop_inv {cfg : V1.Config} {lang cid nom mnm : String}
    {keywords : List String} {n : Nat} {fs : Nat → ℚ} {is : Nat → Nat}
    {st : V1.GenSt} {exs : List Example} {st' : V1.GenSt}
    (hm : lang ∈ supportedLangs) (hs : StatsInv st.stats)
    (h : V1.keywordExamplesLoop cfg lang cid nom mnm keywords n fs is st =
      some (exs, st')) :
    StatsInv st'.stats ∧ st'.stats.concepts = st.stats.concepts := by
  induction n generalizing st exs st' with
  | zero =>
    unfold V1.keywordExamplesLoop at h
    cases h
    exact ⟨hs, rfl⟩
  | succ n ihn =>
    unfold V1.keywordExamplesLoop at h
    cases hkw : pyChoice keywords (is st.ii) with
    | none => rw [hkw] at h; cases h
    | some kw =>
      rw [hkw] at h
      simp only [] at h
      by_cases hstrip : pyStrip kw = ""
      · rw [if_pos hstrip] at h
        have h2 := ihn (show StatsInv
          ({ st with ii := st.ii + 1 } : V1.GenSt).stats from hs) h
        exact h2
      · rw [if_neg hstrip] at h
        cases htpl : pyChoice (tplOf KEYWORD_QUESTION_TEMPLATES lang)
            (is (st.ii + 1)) with
        | none => rw [htpl] at h; cases h
        | some tpl =>
          rw [htpl] at h
          simp only [] at h
          split at h
          next => cases h
          next augExs st1 hea =>
            split at h
            next => cases h
            next rest st2 hrest =>
              cases h
              have h1 := emitAugmented_inv hm
                (addOriginal_inv lang st.stats hm hs) hea
              have h2 := ihn h1.1 hrest
              refine ⟨h2.1, ?_⟩
              rw [h2.2, h1.2]
              exact addOriginal_concepts lang st.stats

theorem v1ProcessConceptoLang_inv {cfields nombres pkDict :
    List (String × JVal)} {cid : JVal} {mnm : String} {cfg : V1.Config}
    {lang : String} {fs : Nat → ℚ} {is : Nat → Nat} {st : V1.GenSt}
    {exs : List Example} {st' : V1.GenSt}
    (hm : lang ∈ supportedLangs) (hs : StatsInv st.stats)
    (h : V1.processConceptoLang cfields nombres pkDict cid mnm cfg lang fs is
      st = some (exs, st')) :
    StatsInv st'.stats ∧ st'.stats.concepts = st.stats.concepts := by
  unfold V1.processConceptoLang at h
  simp only [] at h
  by_cases hnf : jFalsy (resolveLocalized nombres lang cid) = true
  · rw [if_pos hnf] at h
    cases h
    exact ⟨hs, rfl⟩
  · rw [if_neg hnf] at h
    split at h
    next => cases h
    next exs1 st1 hloop =>
      split at h
      next => cases h
      next keywords hkws =>
        have h1 := conceptExamplesLoop_inv hm hs hloop
        by_cases hke : keywords.isEmpty = true
        · rw [if_pos hke] at h
          cases h
          exact h1
        · rw [if_neg hke] at h
          split at h
          next => cases h
          next kws st2 hkwloop =>
            cases h
            have h2 := keywordExamplesLoop_inv hm h1.1 hkwloop
            exact ⟨h2.1, by rw [h2.2, h1.2]⟩

theorem v1ProcessConceptoLangs_inv {cfields nombres pkDict :
    List (String × JVal)} {cid : JVal} {mnm : String} {cfg : V1.Config}
    {langs : List String} {fs : Nat → ℚ} {is : Nat → Nat} {st : V1.GenSt}
    {exs : List Example} {st' : V1.GenSt}
    (hall : ∀ l ∈ langs, l ∈ supportedLangs) (hs : StatsInv st.stats)
    (h : V1.processConceptoLangs cfields nombres pkDict cid mnm cfg langs fs
      is st = some (exs, st')) :
    StatsInv st'.stats ∧ st'.stats.concepts = st.stats.concepts := by
  induction langs generalizing st exs st' with
  | nil =>
    unfold V1.processConceptoLangs at h
    cases h
    exact ⟨hs, rfl⟩
  | cons lang rest ih =>
    unfold V1.processConceptoLangs at h
    split at h
    next => cases h
    next exs1 st1 hL =>
      split at h
      next => cases h
      next more st2 hR =>
        cases h
        have h1 := v1ProcessConceptoLang_inv (hall lang (by simp)) hs hL
        have h2 := ih (fun l hl => hall l (by simp [hl])) h1.1 hR
        exact ⟨h2.1, by rw [h2.2, h1.2]⟩

theorem v1ProcessConcepto_inv {concepto : JVal} {mnm : String}
    {cfg : V1.Config} {fs : Nat → ℚ} {is : Nat → Nat} {st : V1.GenSt}
    {exs : List Example} {st' : V1.GenSt}
    (hs : StatsInv st.stats)
    (h : V1.processConcepto concepto mnm cfg fs is st = some (exs, st')) :
    StatsInv st'.stats ∧ st'.stats.concepts = st.stats.concepts := by
  cases concepto with
  | obj cfields =>
    unfold V1.processConcepto at h
    simp only [] at h
    exact v1ProcessConceptoLangs_inv (fun l hl => hl) hs h
  | str s => cases h
  | num n => cases h
  | arr l => cases h

theorem v1MinisterioExamplesLoop_inv {cfg : V1.Config}
    {lang mid nom fmt : String} {templates : List String} {i : Nat}
    {fs : Nat → ℚ} {is : Nat → Nat} {st : V1.GenSt} {exs : List Example}
    {st' : V1.GenSt}
    (hm : lang ∈ supportedLangs) (hs : StatsInv st.stats)
    (h : V1.ministerioExamplesLoop cfg lang mid nom fmt templates i fs is st =
      some (exs, st')) :
    StatsInv st'.stats ∧ st'.stats.concepts = st.stats.concepts := by
  induction templates generalizing i st exs st' with
  | nil =>
    unfold V1.ministerioExamplesLoop at h
    cases h
    exact ⟨hs, rfl⟩
  | cons template rest ih =>
    unfold V1.ministerioExamplesLoop at h
    simp only [] at h
    split at h
    next => cases h
    next augExs st1 hea =>
      split at h
      next => cases h
      next rest' st2 hrest =>
        cases h
        have h1 := emitAugmented_inv hm
          (addOriginal_inv lang st.stats hm hs) hea
        have h2 := ih h1.1 hrest
        refine ⟨h2.1, ?_⟩
        rw [h2.2, h1.2]
        exact addOriginal_concepts lang st.stats

theorem v1ProcessMinisterioLang_inv {cfg : V1.Config}
    {mnombres : List (String × JVal)} {mid : JVal}
    {dicts : List (List (String × JVal))} {lang : String} {fs : Nat → ℚ}
    {is : Nat → Nat} {st : V1.GenSt} {exs : List Example} {st' : V1.GenSt}
    (hm : lang ∈ supportedLangs) (hs : StatsInv st.stats)
    (h : V1.processMinisterioLang cfg mnombres mid dicts lang fs is st =
      some (exs, st')) :
    StatsInv st'.stats ∧ st'.stats.concepts = st.stats.concepts := by
  unfold V1.processMinisterioLang at h
  simp only [] at h
  by_cases hce : (V2.conceptNamesFor dicts lang).isEmpty = true
  · rw [if_pos hce] at h
    cases h
    exact ⟨hs, rfl⟩
  · rw [if_neg hce] at h
    have h2 := v1MinisterioExamplesLoop_inv hm (show StatsInv
      ({ st with ii := st.ii + min 5 (V2.conceptNamesFor dicts lang).length } :
        V1.GenSt).stats from hs) h
    exact h2

theorem v1ProcessMinisterioLangs_inv {cfg : V1.Config}
    {mnombres : List (String × JVal)} {mid : JVal}
    {dicts : List (List (String × JVal))} {langs : List String}
    {fs : Nat → ℚ} {is : Nat → Nat} {st : V1.GenSt} {exs : List Example}
    {st' : V1.GenSt}
    (hall : ∀ l ∈ langs, l ∈ supportedLangs) (hs : StatsInv st.stats)
    (h : V1.processMinisterioLangs cfg mnombres mid dicts langs fs is st =
      some (exs, st')) :
    StatsInv st'.stats ∧ st'.stats.concepts = st.stats.concepts := by
  induction langs generalizing st exs st' with
  | nil =>
    unfold V1.processMinisterioLangs at h
    cases h
    exact ⟨hs, rfl⟩
  | cons lang rest ih =>
    unfold V1.processMinisterioLangs at h
    split at h
    next => cases h
    next exs1 st1 hL =>
      split at h
      next => cases h
      next more st2 hR =>
        cases h
        have h1 := v1ProcessMinisterioLang_inv (hall lang (by simp)) hs hL
        have h2 := ih (fun l hl => hall l (by simp [hl])) h1.1 hR
        exact ⟨h2.1, by rw [h2.2, h1.2]⟩

theorem v1ProcessMinisterio_inv {ministerio : JVal} {cfg : V1.Config}
    {fs : Nat → ℚ} {is : Nat → Nat} {st : V1.GenSt} {exs : List Example}
    {st' : V1.GenSt}
    (hs : StatsInv st.stats)
    (h : V1.processMinisterio ministerio cfg fs is st = some (exs, st')) :
    StatsInv st'.stats ∧ st'.stats.concepts = st.stats.concepts := by
  cases ministerio with
  | obj mfields =>
    unfold V1.processMinisterio at h
    simp only [] at h
    split at h
    next => cases h
    next dicts hdicts =>
      exact v1ProcessMinisterioLangs_inv (fun l hl => hl) hs h
  | str s => cases h
  | num n => cases h
  | arr l => cases h

theorem v1GreetingLoop_inv {cfg : V1.Config} {lang : String}
    {greetings : List String} {i : Nat} {fs : Nat → ℚ} {is : Nat → Nat}
    {st : V1.GenSt} {exs : List Example} {st' : V1.GenSt}
    (hm : lang ∈ supportedLangs) (hs : StatsInv st.stats)
    (h : V1.greetingLoop cfg lang greetings i fs is st = some (exs, st')) :
    StatsInv st'.stats ∧ st'.stats.concepts = st.stats.concepts := by
  induction greetings generalizing i st exs st' with
  | nil =>
    unfold V1.greetingLoop at h
    cases h
    exact ⟨hs, rfl⟩
  | cons greeting rest ih =>
    unfold V1.greetingLoop at h
    cases hresp : pyChoice (tplOf GREETING_RESPONSES lang) (is st.ii) with
    | none => rw [hresp] at h; cases h
    | some response =>
      rw [hresp] at h
      simp only [] at h
      split at h
      next => cases h
      next augExs st1 hea =>
        split at h
        next => cases h
        next rest' st2 hrest =>
          cases h
          have h1 := emitAugmented_inv hm
            (addOriginal_inv lang st.stats hm hs) hea
          have h2 := ih h1.1 hrest
          refine ⟨h2.1, ?_⟩
          rw [h2.2, h1.2]
          exact addOriginal_concepts lang st.stats

theorem v1ThanksLoop_inv {cfg : V1.Config} {lang : String}
    {thanks : List String} {i : Nat} {fs : Nat → ℚ} {is : Nat → Nat}
    {st : V1.GenSt} {exs : List Example} {st' : V1.GenSt}
    (hm : lang ∈ supportedLangs) (hs : StatsInv st.stats)
    (h : V1.thanksLoop cfg lang thanks i fs is st = some (exs, st')) :
    StatsInv st'.stats ∧ st'.stats.concepts = st.stats.concepts := by
  induction thanks generalizing i st exs st' with
  | nil =>
    unfold V1.thanksLoop at h
    cases h
    exact ⟨hs, rfl⟩
  | cons t rest ih =>
    unfold V1.thanksLoop at h
    cases hresp : pyChoice (tplOf THANKS_RESPONSES lang) (is st.ii) with
    | none => rw [hresp] at h; cases h
    | some response =>
      rw [hresp] at h
      simp only [] at h
      split at h
      next => cases h
      next augExs st1 hea =>
        split at h
        next => cases h
        next rest' st2 hrest =>
          cases h
          have h1 := emitAugmented_inv hm
            (addOriginal_inv lang st.stats hm hs) hea
          have h2 := ih h1.1 hrest
          refine ⟨h2.1, ?_⟩
          rw [h2.2, h1.2]
          exact addOriginal_concepts lang st.stats

theorem v1GenerateGreetingLangs_inv {cfg : V1.Config} {langs : List String}
    {fs : Nat → ℚ} {is : Nat → Nat} {st : V1.GenSt} {exs : List Example}
    {st' : V1.GenSt}
    (hall : ∀ l ∈ langs, l ∈ supportedLangs) (hs : StatsInv st.stats)
    (h : V1.generateGreetingLangs cfg langs fs is st = some (exs, st')) :
    StatsInv st'.stats ∧ st'.stats.concepts = st.stats.concepts := by
  induction langs generalizing st exs st' with
  | nil =>
    unfold V1.generateGreetingLangs at h
    cases h
    exact ⟨hs, rfl⟩
  | cons lang rest ih =>
    unfold V1.generateGreetingLangs at h
    split at h
    next => cases h
    next gs st1 hG =>
      split at h
      next => cases h
      next ts st2 hT =>
        split at h
        next => cases h
        next more st3 hR =>
          cases h
          have h1 := v1GreetingLoop_inv (hall lang (by simp)) hs hG
          have h2 := v1ThanksLoop_inv (hall lang (by simp)) h1.1 hT
          have h3 := ih (fun l hl => hall l (by simp [hl])) h2.1 hR
          exact ⟨h3.1, by rw [h3.2, h2.2, h1.2]⟩

theorem countConceptos_base (conceptos : List JVal) (n : Nat) :
    countConceptos conceptos n =
      (countConceptos conceptos 0).map (fun m => m + n) := by
  induction conceptos generalizing n with
  | nil => simp [countConceptos]
  | cons c rest ih =>
    cases c with
    | obj cfields =>
      unfold countConceptos
      rw [ih (n + 1), ih 1]
      cases countConceptos rest 0 <;> simp <;> omega
    | str s => simp [countConceptos]
    | num k => simp [countConceptos]
    | arr l => simp [countConceptos]

theorem countSubCategorias_base (subs : List JVal) (n : Nat) :
    countSubCategorias subs n =
      (countSubCategorias subs 0).map (fun m => m + n) := by
  induction subs generalizing n with
  | nil => simp [countSubCategorias]
  | cons sub rest ih =>
    cases sub with
    | obj subfields =>
      unfold countSubCategorias
      simp only []
      cases hit : pyIter ((subfields.lookup "conceptos").getD (JVal.arr [])) with
      | none => simp
      | some conceptos =>
        simp only []
        rw [countConceptos_base conceptos n]
        cases hc : countConceptos conceptos 0 with
        | none => simp
        | some n1 =>
          rw [Option.map_some']
          simp only []
          rw [ih (n1 + n), ih n1]
          cases countSubCategorias rest 0 <;> simp <;> omega
    | str s => simp [countSubCategorias]
    | num k => simp [countSubCategorias]
    | arr l => simp [countSubCategorias]

theorem countCategorias_base (categorias : List JVal) (n : Nat) :
    countCategorias categorias n =
      (countCategorias categorias 0).map (fun m => m + n) := by
  induction categorias generalizing n with
  | nil => simp [countCategorias]
  | cons categoria rest ih =>
    cases categoria with
    | obj catfields =>
      unfold countCategorias
      simp only []
      cases hit : pyIter ((catfields.lookup "sub_categorias").getD
          (JVal.arr [])) with
      | none => simp
      | some subs =>
        simp only []
        rw [countSubCategorias_base subs n]
        cases hc : countSubCategorias subs 0 with
        | none => simp
        | some n1 =>
          rw [Option.map_some']
          simp only []
          rw [ih (n1 + n), ih n1]
          cases countCategorias rest 0 <;> simp <;> omega
    | str s => simp [countCategorias]
    | num k => simp [countCategorias]
    | arr l => simp [countCategorias]

theorem countSectores_base (sectores : List JVal) (n : Nat) :
    countSectores sectores n =
      (countSectores sectores 0).map (fun m => m + n) := by
  induction sectores generalizing n with
  | nil => simp [countSectores]
  | cons sector rest ih =>
    cases sector with
    | obj sfields =>
      unfold countSectores
      simp only []
      cases hit : pyIter ((sfields.lookup "categorias").getD (JVal.arr [])) with
      | none => simp
      | some categorias =>
        simp only []
        rw [countCategorias_base categorias n]
        cases hc : countCategorias categorias 0 with
        | none => simp
        | some n1 =>
          rw [Option.map_some']
          simp only []
          rw [ih (n1 + n), ih n1]
          cases countSectores rest 0 <;> simp <;> omega
    | str s => simp [countSectores]
    | num k => simp [countSectores]
    | arr l => simp [countSectores]

theorem walkConceptos_inv {conceptos : List JVal} {mnm : String}
    {cfg : V1.Config} {fs : Nat → ℚ} {is : Nat → Nat}
    {acc out : List Example × V1.GenSt}
    (hs : StatsInv acc.2.stats)
    (h : V1.walkConceptos conceptos mnm cfg fs is acc = some out) :
    StatsInv out.2.stats ∧
      countConceptos conceptos acc.2.stats.concepts =
        some out.2.stats.concepts := by
  induction conceptos generalizing acc out with
  | nil =>
    unfold V1.walkConceptos at h
    cases h
    exact ⟨hs, rfl⟩
  | cons concepto rest ih =>
    unfold V1.walkConceptos at h
    split at h
    next => cases h
    next examples st1 hP =>
      cases concepto with
      | obj cfields =>
        have h1 := v1ProcessConcepto_inv hs hP
        have h2 := ih (show StatsInv ((acc.1 ++ examples, { st1 with stats :=
          { st1.stats with concepts := st1.stats.concepts + 1 } }) :
          List Example × V1.GenSt).2.stats from h1.1) h
        refine ⟨h2.1, ?_⟩
        unfold countConceptos
        simp only []
        rw [← h1.2]
        exact h2.2
      | str s => exact absurd hP (by simp [V1.processConcepto])
      | num k => exact absurd hP (by simp [V1.processConcepto])
      | arr l => exact absurd hP (by simp [V1.processConcepto])

theorem walkSubCategorias_inv {subs : List JVal} {mnm : String}
    {cfg : V1.Config} {fs : Nat → ℚ} {is : Nat → Nat}
    {acc out : List Example × V1.GenSt}
    (hs : StatsInv acc.2.stats)
    (h : V1.walkSubCategorias subs mnm cfg fs is acc = some out) :
    StatsInv out.2.stats ∧
      countSubCategorias subs acc.2.stats.concepts =
        some out.2.stats.concepts := by
  induction subs generalizing acc out with
  | nil =>
    unfold V1.walkSubCategorias at h
    cases h
    exact ⟨hs, rfl⟩
  | cons sub rest ih =>
    unfold V1.walkSubCategorias at h
    cases sub with
    | obj subfields =>
      simp only [] at h
      cases hit : pyIter ((subfields.lookup "conceptos").getD (JVal.arr [])) with
      | none => rw [hit] at h; cases h
      | some conceptos =>
        rw [hit] at h
        simp only [] at h
        split at h
        next => cases h
        next acc1 hW =>
          have h1 := walkConceptos_inv hs hW
          have h2 := ih h1.1 h
          refine ⟨h2.1, ?_⟩
          unfold countSubCategorias
          simp only []
          rw [hit]
          simp only []
          rw [h1.2]
          exact h2.2
    | str s => cases h
    | num k => cases h
    | arr l => cases h

theorem walkCategorias_inv {categorias : List JVal} {mnm : String}
    {cfg : V1.Config} {fs : Nat → ℚ} {is : Nat → Nat}
    {acc out : List Example × V1.GenSt}
    (hs : StatsInv acc.2.stats)
    (h : V1.walkCategorias categorias mnm cfg fs is acc = some out) :
    StatsInv out.2.stats ∧
      countCategorias categorias acc.2.stats.concepts =
        some out.2.stats.concepts := by
  induction categorias generalizing acc out with
  | nil =>
    unfold V1.walkCategorias at h
    cases h
    exact ⟨hs, rfl⟩
  | cons categoria rest ih =>
    unfold V1.walkCategorias at h
    cases categoria with
    | obj catfields =>
      simp only [] at h
      cases hit : pyIter ((catfields.lookup "sub_categorias").getD
          (JVal.arr [])) with
      | none => rw [hit] at h; cases h
      | some subs =>
        rw [hit] at h
        simp only [] at h
        split at h
        next => cases h
        next acc1 hW =>
          have h1 := walkSubCategorias_inv hs hW
          have h2 := ih h1.1 h
          refine ⟨h2.1, ?_⟩
          unfold countCategorias
          simp only []
          rw [hit]
          simp only []
          rw [h1.2]
          exact h2.2
    | str s => cases h
    | num k => cases h
    | arr l => cases h

theorem walkSectores_inv {sectores : List JVal} {mnm : String}
    {cfg : V1.Config} {fs : Nat → ℚ} {is : Nat → Nat}
    {acc out : List Example × V1.GenSt}
    (hs : StatsInv acc.2.stats)
    (h : V1.walkSectores sectores mnm cfg fs is acc = some out) :
    StatsInv out.2.stats ∧
      countSectores sectores acc.2.stats.concepts =
        some out.2.stats.concepts := by
  induction sectores generalizing acc out with
  | nil =>
    unfold V1.walkSectores at h
    cases h
    exact ⟨hs, rfl⟩
  | cons sector rest ih =>
    unfold V1.walkSectores at h
    cases sector with
    | obj sfields =>
      simp only [] at h
      cases hit : pyIter ((sfields.lookup "categorias").getD (JVal.arr [])) with
      | none => rw [hit] at h; cases h
      | some categorias =>
        rw [hit] at h
        simp only [] at h
        split at h
        next => cases h
        next acc1 hW =>
          have h1 := walkCategorias_inv hs hW
          have h2 := ih h1.1 h
          refine ⟨h2.1, ?_⟩
          unfold countSectores
          simp only []
          rw [hit]
          simp only []
          rw [h1.2]
          exact h2.2
    | str s => cases h
    | num k => cases h
    | arr l => cases h

theorem conceptWalk_inv {mfields : List (String × JVal)} {mnm : String}
    {cfg : V1.Config} {fs : Nat → ℚ} {is : Nat → Nat} {st : V1.GenSt}
    {out : List Example × V1.GenSt}
    (hs : StatsInv st.stats)
    (h : V1.conceptWalk mfields mnm cfg fs is st = some out) :
    StatsInv out.2.stats ∧ ∃ k, countConceptsWalk mfields = some k ∧
      out.2.stats.concepts = st.stats.concepts + k := by
  unfold V1.conceptWalk at h
  cases hit : pyIter ((mfields.lookup "sectores").getD (JVal.arr [])) with
  | none => rw [hit] at h; cases h
  | some sectores =>
    rw [hit] at h
    simp only [] at h
    have h1 := walkSectores_inv (show StatsInv
      (([], st) : List Example × V1.GenSt).2.stats from hs) h
    refine ⟨h1.1, ?_⟩
    have hb := countSectores_base sectores st.stats.concepts
    rw [h1.2] at hb
    cases h0 : countSectores sectores 0 with
    | none => rw [h0] at hb; cases hb
    | some k =>
      rw [h0] at hb
      simp only [Option.map_some'] at hb
      refine ⟨k, ?_, ?_⟩
      · unfold countConceptsWalk
        rw [hit]
        simp only []
        exact h0
      · have hk := Option.some.inj hb
        omega

theorem v1ProcessMinisterioNode_inv {ministerio : JVal} {cfg : V1.Config}
    {fs : Nat → ℚ} {is : Nat → Nat} {st : V1.GenSt}
    {exs : List Example} {st' : V1.GenSt}
    (hs : StatsInv st.stats)
    (h : V1.processMinisterioNode ministerio cfg fs is st = some (exs, st')) :
    StatsInv st'.stats ∧ ∃ mfields k, ministerio = JVal.obj mfields ∧
      countConceptsWalk mfields = some k ∧
      st'.stats.concepts = st.stats.concepts + k := by
  cases ministerio with
  | obj mfields =>
    unfold V1.processMinisterioNode at h
    simp only [] at h
    split at h
    next => cases h
    next mexamples st1 hM =>
      split at h
      next => cases h
      next cexamples st2 hW =>
        cases h
        have h1 := v1ProcessMinisterio_inv hs hM
        have h2 := conceptWalk_inv h1.1 hW
        obtain ⟨k, hk, hc⟩ := h2.2
        exact ⟨h2.1, mfields, k, rfl, hk, by rw [hc, h1.2]⟩
  | str s => cases h
  | num n => cases h
  | arr l => cases h

theorem v1ProcessMinisterioNodes_inv {ministerios : List JVal}
    {cfg : V1.Config} {fs : Nat → ℚ} {is : Nat → Nat}
    {acc out : List Example × V1.GenSt}
    (hs : StatsInv acc.2.stats)
    (h : V1.processMinisterioNodes ministerios cfg fs is acc = some out) :
    StatsInv out.2.stats ∧
      countMinisterios ministerios acc.2.stats.concepts =
        some out.2.stats.concepts := by
  induction ministerios generalizing acc out with
  | nil =>
    unfold V1.processMinisterioNodes at h
    cases h
    exact ⟨hs, rfl⟩
  | cons ministerio rest ih =>
    unfold V1.processMinisterioNodes at h
    split at h
    next => cases h
    next examples st1 hN =>
      have h1 := v1ProcessMinisterioNode_inv hs hN
      obtain ⟨mfields, k, hmf, hk, hc⟩ := h1.2
      subst hmf
      have h2 := ih (show StatsInv ((acc.1 ++ examples, st1) :
        List Example × V1.GenSt).2.stats from h1.1) h
      refine ⟨h2.1, ?_⟩
      unfold countMinisterios
      simp only []
      rw [hk]
      simp only []
      rw [← hc]
      exact h2.2

/-- C5: after every successful run of the augmenting `generate_corpus`, the
    accumulated statistics satisfy `total_examples` = sum of the per-language
    counters, `augmented_examples ≤ total_examples`, and the `concepts`
    counter equals the number of concept nodes visited in the input
    hierarchy (as counted by the same traversal order), for every input,
    configuration and draw streams. -/
theorem C5_stats_invariants {loaded : Option JVal} {cfg : V1.Config}
    {fs : Nat → ℚ} {is : Nat → Nat} {corpus : List Example} {stats : Stats}
    (h : V1.generateCorpus loaded cfg fs is = some (true, corpus, stats)) :
    stats.total_examples = stats.lang_es + stats.lang_fr + stats.lang_en ∧
    stats.augmented_examples ≤ stats.total_examples ∧
    countConcepts (V2.loadData loaded) = some stats.concepts := by
  unfold V1.generateCorpus at h
  simp only [] at h
  by_cases hf : jFalsy (V2.loadData loaded) = true
  · rw [if_pos hf] at h
    simp at h
  · rw [if_neg hf] at h
    cases hit : pyIter (V2.loadData loaded) with
    | none => rw [hit] at h; cases h
    | some ministerios =>
      rw [hit] at h
      simp only [] at h
      split at h
      next => cases h
      next corpus1 st hN =>
        split at h
        next => cases h
        next gexamples st2 hG =>
          cases h
          unfold V1.generateGreetingExamples at hG
          have h1 := v1ProcessMinisterioNodes_inv (show StatsInv
            ((([], ⟨initStats, 0, 0⟩) : List Example × V1.GenSt)).2.stats from
            ⟨rfl, Nat.le_refl 0⟩) hN
          have h2 := v1GenerateGreetingLangs_inv (fun l hl => hl) h1.1 hG
          refine ⟨h2.1.1, h2.1.2, ?_⟩
          unfold countConcepts
          rw [hit]
          simp only []
          rw [h2.2]
          exact h1.2

/-- Witness for C5 at a concrete run: one ministry with three concept nodes,
    augmentation disabled, constant-zero draw streams; the run succeeds with
    58 = 19 + 19 + 20 examples, 0 augmented, and 3 concepts counted. -/
theorem C5_stats_invariants_witness :
    ((V1.generateCorpus (some (JVal.arr [witMinisterio])) witConfigOff
        (fun _ => 0) (fun _ => 0)).map (fun r => (r.1, r.2.2)) =
      some (true, (⟨58, 3, 19, 19, 20, 0⟩ : Stats))) ∧
    ((⟨58, 3, 19, 19, 20, 0⟩ : Stats).total_examples =
        (⟨58, 3, 19, 19, 20, 0⟩ : Stats).lang_es +
        (⟨58, 3, 19, 19, 20, 0⟩ : Stats).lang_fr +
        (⟨58, 3, 19, 19, 20, 0⟩ : Stats).lang_en ∧
      (⟨58, 3, 19, 19, 20, 0⟩ : Stats).augmented_examples ≤
        (⟨58, 3, 19, 19, 20, 0⟩ : Stats).total_examples ∧
      countConcepts (V2.loadData (some (JVal.arr [witMinisterio]))) =
        some (⟨58, 3, 19, 19, 20, 0⟩ : Stats).concepts) :=
  ⟨by rfl,
   @C5_stats_invariants (some (JVal.arr [witMinisterio])) witConfigOff
     (fun _ => 0) (fun _ => 0) _ ⟨58, 3, 19, 19, 20, 0⟩ rfl⟩
